import Mathlib

/-!
Verification of the askai core against its specification.

The definitions below are shallow embeddings of the Rust sources:
* `src/executor/planner.rs` — `Task`, `ExecutionPlan`, `get_parallel_groups`
* `src/cache/response.rs` — `CacheEntry`, `ResponseCache` and its operations
* `src/executor/batch.rs` — `TaskResult`, `BatchResult`, `BatchExecutor::execute`
* `src/daemon/server.rs`, `src/daemon/session.rs` — request handling and
  the lock-acquisition traces of `SessionPool::generate_command`
* `src/ai/response_processor.rs` — `ResponseProcessor::process`

Rust `HashMap`s are modelled as association lists with unique keys,
`HashSet`s as duplicate-free lists, machine integers as `Nat`/`Int`,
wall-clock time as an explicit `now : Nat` parameter (epoch seconds),
and fallible operations as `Except`/`Option` values.
-/

deriving instance DecidableEq for Except

namespace Askai

/-! ## Planner (`src/executor/planner.rs`) -/

/-- Rust `Task` from `planner.rs`: one schedulable shell-command unit. -/
structure Task where
  id : Nat
  command : String
  working_dir : Option String
  description : String
deriving DecidableEq, Repr

/-- Rust `Task::new(id, command)`. -/
def Task.new (id : Nat) (command : String) : Task :=
  { id := id
    command := command
    working_dir := none
    description := "Task " ++ toString id }

/-- Rust `Task::with_dir`. -/
def Task.with_dir (t : Task) (dir : String) : Task :=
  { t with working_dir := some dir }

/-- Rust `Task::with_description`. -/
def Task.with_description (t : Task) (desc : String) : Task :=
  { t with description := desc }

/-- Rust `ExecutionPlan` from `planner.rs`.  The Rust
`HashMap<usize, Vec<usize>>` of dependencies is modelled as an
association list with unique keys. -/
structure ExecutionPlan where
  tasks : List Task
  can_parallelize : Bool
  dependencies : List (Nat × List Nat)
deriving DecidableEq, Repr

/-- Rust `ExecutionPlan::new(tasks)`. -/
def ExecutionPlan.new (tasks : List Task) : ExecutionPlan :=
  { tasks := tasks, can_parallelize := true, dependencies := [] }

/-- Rust `ExecutionPlan::add_task`. -/
def ExecutionPlan.add_task (p : ExecutionPlan) (t : Task) : ExecutionPlan :=
  { p with tasks := p.tasks ++ [t] }

/-- Rust `HashMap::get` on the dependency map. -/
def lookupDeps (deps : List (Nat × List Nat)) (id : Nat) : Option (List Nat) :=
  (deps.find? (fun e => e.1 = id)).map (·.2)

/-- Rust `self.dependencies.entry(task_id).or_insert_with(Vec::new).push(depends_on)`. -/
def addDepEntry : List (Nat × List Nat) → Nat → Nat → List (Nat × List Nat)
  | [], k, d => [(k, [d])]
  | (k', ds) :: rest, k, d =>
    if k' = k then (k', ds ++ [d]) :: rest else (k', ds) :: addDepEntry rest k d

/-- Rust `ExecutionPlan::add_dependency(task_id, depends_on)`. -/
def ExecutionPlan.add_dependency (p : ExecutionPlan) (task_id depends_on : Nat) :
    ExecutionPlan :=
  { p with dependencies := addDepEntry p.dependencies task_id depends_on }

/-- Rust `ExecutionPlan::disable_parallelization`. -/
def ExecutionPlan.disable_parallelization (p : ExecutionPlan) : ExecutionPlan :=
  { p with can_parallelize := false }

/-- Rust `ExecutionPlan::task_count`. -/
def ExecutionPlan.task_count (p : ExecutionPlan) : Nat :=
  p.tasks.length

/-- The `can_run` check inside `get_parallel_groups`: a task may enter the
current group when every recorded dependency id is already completed. -/
def canRun (p : ExecutionPlan) (completed : List Nat) (t : Task) : Bool :=
  match lookupDeps p.dependencies t.id with
  | none => true
  | some ds => ds.all (fun d => completed.contains d)

/-- One pass of the inner `for task in &self.tasks` loop: the tasks, in list
order, that are not yet completed and whose dependencies are all completed. -/
def nextGroup (p : ExecutionPlan) (completed : List Nat) : List Task :=
  p.tasks.filter (fun t => !completed.contains t.id && canRun p completed t)

/-- Rust `HashSet::insert` on the completed set (modelled as a duplicate-free list). -/
def insertId (completed : List Nat) (i : Nat) : List Nat :=
  if completed.contains i then completed else completed ++ [i]

/-- Marking every task of the current group completed. -/
def insertIds (completed : List Nat) (g : List Task) : List Nat :=
  g.foldl (fun c t => insertId c t.id) completed

/-- The `while completed.len() < self.tasks.len()` loop of
`get_parallel_groups`, with explicit fuel.  `groupsLoop_fuel_irrelevant`
below shows that any fuel above `tasks.length` gives the same result, so
the fuelled form coincides with the unbounded Rust loop. -/
def groupsLoop (p : ExecutionPlan) : Nat → List Nat → List (List Task)
  | 0, _ => []
  | fuel + 1, completed =>
    if completed.length < p.tasks.length then
      if (nextGroup p completed).isEmpty then []
      else nextGroup p completed :: groupsLoop p fuel (insertIds completed (nextGroup p completed))
    else []

/-- Rust `ExecutionPlan::get_parallel_groups`. -/
def ExecutionPlan.get_parallel_groups (p : ExecutionPlan) : List (List Task) :=
  if !p.can_parallelize || p.tasks.isEmpty then [p.tasks]
  else groupsLoop p (p.tasks.length + 1) []

/-- Rust `ExecutionPlanner::create_single`. -/
def ExecutionPlanner.create_single (command : String) : ExecutionPlan :=
  ExecutionPlan.new [Task.new 0 command]

/-- Rust `ExecutionPlanner::create_parallel`. -/
def ExecutionPlanner.create_parallel (commands : List String) : ExecutionPlan :=
  ExecutionPlan.new ((commands.enum).map (fun e => Task.new e.1 e.2))

/-- Rust `ExecutionPlanner::create_sequential`. -/
def ExecutionPlanner.create_sequential (commands : List String) : ExecutionPlan :=
  (ExecutionPlanner.create_parallel commands).disable_parallelization

/-! ### Planner lemmas -/

/-- Whether a task id may run only depends on the id, via the dependency map. -/
def canRunId (p : ExecutionPlan) (completed : List Nat) (i : Nat) : Bool :=
  match lookupDeps p.dependencies i with
  | none => true
  | some ds => ds.all (fun d => completed.contains d)

theorem canRun_eq_canRunId (p : ExecutionPlan) (completed : List Nat) (t : Task) :
    canRun p completed t = canRunId p completed t.id := rfl

theorem mem_insertId {c : List Nat} {i x : Nat} :
    x ∈ insertId c i ↔ x ∈ c ∨ x = i := by
  unfold insertId
  split
  · rename_i h
    rw [List.elem_iff] at h
    constructor
    · exact fun hx => Or.inl hx
    · rintro (hx | rfl)
      · exact hx
      · exact h
  · simp [List.mem_append]

/-- Length of `insertId` is the original length or one more. -/
theorem length_insertId (c : List Nat) (i : Nat) :
    (insertId c i).length = if c.contains i then c.length else c.length + 1 := by
  unfold insertId
  split <;> simp [*]

theorem length_le_insertId (c : List Nat) (i : Nat) :
    c.length ≤ (insertId c i).length := by
  rw [length_insertId]; split <;> omega

theorem nodup_insertId {c : List Nat} (h : c.Nodup) (i : Nat) :
    (insertId c i).Nodup := by
  unfold insertId
  split
  · exact h
  · rename_i hc
    have hc' : i ∉ c := fun hm => hc (List.elem_eq_true_of_mem hm)
    simpa [List.nodup_append] using ⟨h, hc'⟩

theorem mem_insertIds {c : List Nat} {g : List Task} {x : Nat} :
    x ∈ insertIds c g ↔ x ∈ c ∨ ∃ t ∈ g, t.id = x := by
  induction g generalizing c with
  | nil => simp [insertIds]
  | cons t rest ih =>
    simp only [insertIds, List.foldl_cons] at *
    rw [ih]
    rw [mem_insertId]
    constructor
    · rintro ((h | h) | h)
      · exact Or.inl h
      · exact Or.inr ⟨t, List.mem_cons_self t rest, h.symm⟩
      · obtain ⟨u, hu, hx⟩ := h
        exact Or.inr ⟨u, List.mem_cons_of_mem t hu, hx⟩
    · rintro (h | ⟨u, hu, hx⟩)
      · exact Or.inl (Or.inl h)
      · rcases List.mem_cons.mp hu with rfl | hu
        · exact Or.inl (Or.inr hx.symm)
        · exact Or.inr ⟨u, hu, hx⟩

theorem length_le_insertIds (c : List Nat) (g : List Task) :
    c.length ≤ (insertIds c g).length := by
  induction g generalizing c with
  | nil => simp [insertIds]
  | cons t rest ih =>
    simp only [insertIds, List.foldl_cons] at *
    exact le_trans (length_le_insertId c t.id) (ih (insertId c t.id))

theorem nodup_insertIds {c : List Nat} (h : c.Nodup) (g : List Task) :
    (insertIds c g).Nodup := by
  induction g generalizing c with
  | nil => simpa [insertIds]
  | cons t rest ih =>
    simp only [insertIds, List.foldl_cons] at *
    exact ih (nodup_insertId h t.id)

theorem length_lt_insertIds {c : List Nat} {g : List Task}
    (hne : g ≠ []) (hfresh : ∀ t ∈ g, ¬ c.contains t.id) :
    c.length < (insertIds c g).length := by
  cases g with
  | nil => exact absurd rfl hne
  | cons t rest =>
    simp only [insertIds, List.foldl_cons]
    have h1 : (insertId c t.id).length = c.length + 1 := by
      rw [length_insertId]
      have h2 := hfresh t (List.mem_cons_self t rest)
      simp only [Bool.not_eq_true] at h2
      rw [h2]
      simp
    calc c.length < (insertId c t.id).length := by omega
      _ ≤ _ := length_le_insertIds _ rest

theorem contains_eq_true_iff {c : List Nat} {x : Nat} :
    c.contains x = true ↔ x ∈ c := List.elem_iff

theorem contains_eq_false_iff {c : List Nat} {x : Nat} :
    c.contains x = false ↔ x ∉ c := by
  constructor
  · intro h hm
    have h2 : c.contains x = true := List.elem_eq_true_of_mem hm
    rw [h] at h2
    exact Bool.false_ne_true h2
  · intro h
    cases hc : c.contains x with
    | false => rfl
    | true => exact absurd (List.mem_of_elem_eq_true hc) h

/-- Tasks not yet placed: the complement of the completed set. -/
def remaining (p : ExecutionPlan) (completed : List Nat) : List Task :=
  p.tasks.filter (fun t => !completed.contains t.id)

/-- Acyclicity of the dependency map: a rank function decreasing along
every recorded edge.  For a finite graph this is equivalent to the absence
of dependency cycles. -/
def AcyclicDeps (deps : List (Nat × List Nat)) : Prop :=
  ∃ r : Nat → Nat, ∀ e ∈ deps, ∀ d ∈ e.2, r d < r e.1

/-- Every id referenced by the dependency map is the id of some task. -/
def DepsRefValid (p : ExecutionPlan) : Prop :=
  ∀ e ∈ p.dependencies, ∀ d ∈ e.2, ∃ t ∈ p.tasks, t.id = d

instance (p : ExecutionPlan) : Decidable (DepsRefValid p) := by
  unfold DepsRefValid
  infer_instance

theorem lookupDeps_mem {deps : List (Nat × List Nat)} {i : Nat} {ds : List Nat}
    (h : lookupDeps deps i = some ds) : (i, ds) ∈ deps := by
  unfold lookupDeps at h
  cases hf : deps.find? (fun e => e.1 = i) with
  | none => rw [hf] at h; cases h
  | some e =>
    rw [hf] at h
    have he : e ∈ deps := List.mem_of_find?_eq_some hf
    have hkey : e.1 = i := by
      have := List.find?_some hf
      exact of_decide_eq_true this
    have hval : e.2 = ds := by
      simpa using h
    have : e = (i, ds) := by
      cases e
      simp only at hkey hval
      rw [hkey, hval]
    rw [← this]
    exact he

theorem nextGroup_eq_filter (p : ExecutionPlan) (c : List Nat) :
    nextGroup p c =
      p.tasks.filter (fun t => !c.contains t.id && canRunId p c t.id) := rfl

/-- After marking the current group completed, what remains is exactly the
set of tasks that were blocked (not yet runnable). -/
theorem remaining_insertIds_nextGroup (p : ExecutionPlan) (c : List Nat) :
    remaining p (insertIds c (nextGroup p c)) =
      p.tasks.filter (fun t => !c.contains t.id && !canRunId p c t.id) := by
  apply List.filter_congr
  intro t ht
  have hex : (∃ u ∈ nextGroup p c, u.id = t.id) ↔
      (t.id ∉ c ∧ canRunId p c t.id = true) := by
    constructor
    · rintro ⟨u, hu, hid⟩
      rw [nextGroup_eq_filter] at hu
      obtain ⟨-, hpred⟩ := List.mem_filter.mp hu
      rw [Bool.and_eq_true] at hpred
      obtain ⟨h1, h2⟩ := hpred
      rw [Bool.not_eq_true'] at h1
      rw [hid] at h1 h2
      exact ⟨contains_eq_false_iff.mp h1, h2⟩
    · rintro ⟨h1, h2⟩
      refine ⟨t, ?_, rfl⟩
      rw [nextGroup_eq_filter]
      refine List.mem_filter.mpr ⟨ht, ?_⟩
      rw [Bool.and_eq_true, Bool.not_eq_true']
      exact ⟨contains_eq_false_iff.mpr h1, h2⟩
  have hiff : t.id ∉ insertIds c (nextGroup p c) ↔
      (t.id ∉ c ∧ canRunId p c t.id = false) := by
    rw [mem_insertIds]
    constructor
    · intro hnot
      have h1 : t.id ∉ c := fun hm => hnot (Or.inl hm)
      refine ⟨h1, ?_⟩
      cases hcr : canRunId p c t.id with
      | false => rfl
      | true => exact absurd (Or.inr (hex.mpr ⟨h1, hcr⟩)) hnot
    · rintro ⟨h1, h2⟩ (hm | hm)
      · exact h1 hm
      · obtain ⟨hna, hcr⟩ := hex.mp hm
        rw [hcr] at h2
        cases h2
  rw [Bool.eq_iff_iff]
  constructor
  · intro hL
    rw [Bool.not_eq_true'] at hL
    obtain ⟨h1, h2⟩ := hiff.mp (contains_eq_false_iff.mp hL)
    rw [Bool.and_eq_true, Bool.not_eq_true', Bool.not_eq_true']
    exact ⟨contains_eq_false_iff.mpr h1, h2⟩
  · intro hR
    rw [Bool.and_eq_true, Bool.not_eq_true', Bool.not_eq_true'] at hR
    obtain ⟨h1, h2⟩ := hR
    rw [Bool.not_eq_true']
    exact contains_eq_false_iff.mpr (hiff.mpr ⟨contains_eq_false_iff.mp h1, h2⟩)

/-- Partition step: the blocked-plus-runnable split is a permutation of
what remained before the pass. -/
theorem remaining_perm_step (p : ExecutionPlan) (c : List Nat) :
    (nextGroup p c ++ remaining p (insertIds c (nextGroup p c))).Perm
      (remaining p c) := by
  rw [remaining_insertIds_nextGroup, nextGroup_eq_filter]
  have e1 : p.tasks.filter (fun t => !c.contains t.id && canRunId p c t.id) =
      (remaining p c).filter (fun t => canRunId p c t.id) := by
    rw [remaining, List.filter_filter]
    apply List.filter_congr
    intro t _
    rw [Bool.and_comm]
  have e2 : p.tasks.filter (fun t => !c.contains t.id && !canRunId p c t.id) =
      (remaining p c).filter (fun t => !canRunId p c t.id) := by
    rw [remaining, List.filter_filter]
    apply List.filter_congr
    intro t _
    rw [Bool.and_comm]
  rw [e1, e2]
  exact List.filter_append_perm _ _

/-- Any non-empty list has an element minimising a `Nat`-valued measure. -/
theorem exists_min_measure {α : Type} (f : α → Nat) :
    ∀ (l : List α), l ≠ [] → ∃ a ∈ l, ∀ b ∈ l, f a ≤ f b := by
  intro l
  induction l with
  | nil => intro h; exact absurd rfl h
  | cons x rest ih =>
    intro _
    cases rest with
    | nil =>
      refine ⟨x, List.mem_cons_self x [], ?_⟩
      intro b hb
      rcases List.mem_cons.mp hb with rfl | hb
      · exact le_refl _
      · cases hb
    | cons y ys =>
      obtain ⟨a, ha, hmin⟩ := ih (List.cons_ne_nil y ys)
      by_cases hle : f x ≤ f a
      · refine ⟨x, List.mem_cons_self x (y :: ys), ?_⟩
        rintro b hb
        rcases List.mem_cons.mp hb with rfl | hb
        · exact le_refl _
        · exact le_trans hle (hmin b hb)
      · refine ⟨a, List.mem_cons_of_mem x ha, ?_⟩
        rintro b hb
        rcases List.mem_cons.mp hb with rfl | hb
        · omega
        · exact hmin b hb

/-- Progress: with an acyclic, fully-referenced dependency map, a pass over
a non-empty remainder always finds at least one runnable task. -/
theorem nextGroup_ne_nil (p : ExecutionPlan) (c : List Nat)
    (r : Nat → Nat) (hrank : ∀ e ∈ p.dependencies, ∀ d ∈ e.2, r d < r e.1)
    (href : DepsRefValid p) (hne : remaining p c ≠ []) :
    nextGroup p c ≠ [] := by
  obtain ⟨t, htmem, htmin⟩ := exists_min_measure (fun t => r t.id) (remaining p c) hne
  obtain ⟨htask, hpred⟩ := List.mem_filter.mp htmem
  have hcr : canRunId p c t.id = true := by
    unfold canRunId
    cases hl : lookupDeps p.dependencies t.id with
    | none => rfl
    | some ds =>
      rw [List.all_eq_true]
      intro d hd
      by_contra hdc
      have hdnotc : d ∉ c := by
        rw [Bool.not_eq_true] at hdc
        exact contains_eq_false_iff.mp hdc
      obtain ⟨u, humem, huid⟩ := href _ (lookupDeps_mem hl) d hd
      have hurem : u ∈ remaining p c := by
        refine List.mem_filter.mpr ⟨humem, ?_⟩
        rw [Bool.not_eq_true']
        rw [huid]
        exact contains_eq_false_iff.mpr hdnotc
      have h1 : r t.id ≤ r u.id := htmin u hurem
      have h2 : r d < r t.id := hrank _ (lookupDeps_mem hl) d hd
      rw [huid] at h1
      omega
  have : t ∈ nextGroup p c := by
    rw [nextGroup_eq_filter]
    exact List.mem_filter.mpr ⟨htask, by rw [Bool.and_eq_true]; exact ⟨hpred, hcr⟩⟩
  exact List.ne_nil_of_mem this

/-- End case: once the completed set is as large as the task list, every
task id is completed and nothing remains. -/
theorem remaining_eq_nil (p : ExecutionPlan) (c : List Nat)
    (hnd : c.Nodup) (hsub : ∀ x ∈ c, x ∈ p.tasks.map Task.id)
    (hlen : p.tasks.length ≤ c.length) :
    remaining p c = [] := by
  have hfin : c.toFinset ⊆ (p.tasks.map Task.id).toFinset := by
    intro x hx
    rw [List.mem_toFinset] at hx ⊢
    exact hsub x hx
  have hc1 : c.toFinset.card = c.length := List.toFinset_card_of_nodup hnd
  have hc2 : (p.tasks.map Task.id).toFinset.card ≤ p.tasks.length := by
    rw [List.card_toFinset]
    calc (p.tasks.map Task.id).dedup.length ≤ (p.tasks.map Task.id).length :=
          (List.dedup_sublist _).length_le
      _ = p.tasks.length := List.length_map _ _
  have heq : c.toFinset = (p.tasks.map Task.id).toFinset :=
    (Finset.eq_of_subset_of_card_le hfin (by omega)).symm ▸ rfl
  rw [remaining, List.filter_eq_nil_iff]
  intro t ht
  rw [Bool.not_eq_true, Bool.not_eq_false']
  apply contains_eq_true_iff.mpr
  have : t.id ∈ (p.tasks.map Task.id).toFinset := by
    rw [List.mem_toFinset]
    exact List.mem_map_of_mem Task.id ht
  rw [← heq] at this
  rw [List.mem_toFinset] at this
  exact this

/-- Coverage: with an acyclic, fully-referenced dependency map and enough
fuel, the loop places exactly the remaining tasks (as a permutation). -/
theorem groupsLoop_flatten_perm (p : ExecutionPlan) (r : Nat → Nat)
    (hrank : ∀ e ∈ p.dependencies, ∀ d ∈ e.2, r d < r e.1)
    (href : DepsRefValid p) :
    ∀ (fuel : Nat) (c : List Nat), c.Nodup →
      (∀ x ∈ c, x ∈ p.tasks.map Task.id) →
      p.tasks.length + 1 ≤ fuel + c.length →
      ((groupsLoop p fuel c).flatten).Perm (remaining p c) := by
  intro fuel
  induction fuel with
  | zero =>
    intro c hnd hsub hlen
    rw [remaining_eq_nil p c hnd hsub (by omega)]
    simp [groupsLoop]
  | succ f ih =>
    intro c hnd hsub hlen
    rw [groupsLoop]
    by_cases hcond : c.length < p.tasks.length
    · rw [if_pos hcond]
      by_cases hg : (nextGroup p c).isEmpty
      · rw [if_pos hg]
        have hrem : remaining p c = [] := by
          by_contra hne
          exact nextGroup_ne_nil p c r hrank href hne (List.isEmpty_iff.mp hg)
        rw [hrem]
        exact List.Perm.refl _
      · rw [if_neg hg]
        have hgne : nextGroup p c ≠ [] := fun h => hg (by rw [h]; rfl)
        have hfresh : ∀ t ∈ nextGroup p c, ¬ c.contains t.id := by
          intro t ht
          rw [nextGroup_eq_filter] at ht
          obtain ⟨-, hpred⟩ := List.mem_filter.mp ht
          rw [Bool.and_eq_true, Bool.not_eq_true'] at hpred
          intro hcon
          rw [hpred.1] at hcon
          cases hcon
        have hlt : c.length < (insertIds c (nextGroup p c)).length :=
          length_lt_insertIds hgne hfresh
        have hnd' : (insertIds c (nextGroup p c)).Nodup := nodup_insertIds hnd _
        have hsub' : ∀ x ∈ insertIds c (nextGroup p c), x ∈ p.tasks.map Task.id := by
          intro x hx
          rcases mem_insertIds.mp hx with hx | ⟨t, ht, rfl⟩
          · exact hsub x hx
          · rw [nextGroup_eq_filter] at ht
            exact List.mem_map_of_mem Task.id (List.mem_filter.mp ht).1
        have hih := ih (insertIds c (nextGroup p c)) hnd' hsub' (by omega)
        refine List.Perm.trans ?_ (remaining_perm_step p c)
        show (nextGroup p c ++
          (groupsLoop p f (insertIds c (nextGroup p c))).flatten).Perm _
        exact List.Perm.append_left _ hih
    · rw [if_neg hcond]
      rw [remaining_eq_nil p c hnd hsub (by omega)]
      exact List.Perm.refl _

/-- Any fuel at least `tasks.length - completed.length` gives the same
result, so the fuelled loop agrees with the unbounded Rust `while` loop. -/
theorem groupsLoop_fuel_irrelevant (p : ExecutionPlan) :
    ∀ (f1 f2 : Nat) (c : List Nat),
      p.tasks.length ≤ f1 + c.length → p.tasks.length ≤ f2 + c.length →
      groupsLoop p f1 c = groupsLoop p f2 c := by
  intro f1
  induction f1 with
  | zero =>
    intro f2 c h1 h2
    cases f2 with
    | zero => rfl
    | succ b =>
      rw [groupsLoop, groupsLoop, if_neg (by omega)]
  | succ a ih =>
    intro f2 c h1 h2
    cases f2 with
    | zero =>
      rw [groupsLoop, groupsLoop, if_neg (by omega)]
    | succ b =>
      rw [groupsLoop]
      conv_rhs => rw [groupsLoop]
      by_cases hcond : c.length < p.tasks.length
      · rw [if_pos hcond, if_pos hcond]
        by_cases hg : (nextGroup p c).isEmpty
        · rw [if_pos hg, if_pos hg]
        · rw [if_neg hg, if_neg hg]
          have hgne : nextGroup p c ≠ [] := fun h => hg (by rw [h]; rfl)
          have hfresh : ∀ t ∈ nextGroup p c, ¬ c.contains t.id := by
            intro t ht
            rw [nextGroup_eq_filter] at ht
            obtain ⟨-, hpred⟩ := List.mem_filter.mp ht
            rw [Bool.and_eq_true, Bool.not_eq_true'] at hpred
            intro hcon
            rw [hpred.1] at hcon
            cases hcon
          have hlt : c.length < (insertIds c (nextGroup p c)).length :=
            length_lt_insertIds hgne hfresh
          rw [ih b (insertIds c (nextGroup p c)) (by omega) (by omega)]
      · rw [if_neg hcond, if_neg hcond]

/-- Task ids of a group, in order. -/
def idsOf (g : List Task) : List Nat := g.map Task.id

theorem mem_idsOf {g : List Task} {x : Nat} :
    x ∈ idsOf g ↔ ∃ u ∈ g, u.id = x := by
  unfold idsOf
  exact List.mem_map

/-- Placement invariants of the loop: a task in group `i` was not already
completed and is not placed in any earlier group, and each of its
dependencies was either completed at entry or placed in an earlier group. -/
theorem groupsLoop_placed (p : ExecutionPlan) :
    ∀ (fuel : Nat) (c : List Nat) (i : Nat) (g : List Task),
      (groupsLoop p fuel c)[i]? = some g → ∀ t ∈ g,
      (t.id ∉ c ∧ t.id ∉ idsOf (((groupsLoop p fuel c).take i).flatten)) ∧
      (∀ ds, lookupDeps p.dependencies t.id = some ds →
        ∀ d ∈ ds, d ∈ c ∨ d ∈ idsOf (((groupsLoop p fuel c).take i).flatten)) := by
  intro fuel
  induction fuel with
  | zero =>
    intro c i g hi
    simp [groupsLoop] at hi
  | succ f ih =>
    intro c i g hi t ht
    by_cases hcond : c.length < p.tasks.length
    case neg =>
      rw [groupsLoop, if_neg hcond] at hi
      simp at hi
    case pos =>
      by_cases hg0 : (nextGroup p c).isEmpty
      · rw [groupsLoop, if_pos hcond, if_pos hg0] at hi
        simp at hi
      · have hcons : groupsLoop p (f + 1) c =
            nextGroup p c ::
              groupsLoop p f (insertIds c (nextGroup p c)) := by
          rw [groupsLoop, if_pos hcond, if_neg hg0]
        rw [hcons] at hi ⊢
        cases i with
        | zero =>
          rw [List.getElem?_cons_zero] at hi
          obtain rfl : nextGroup p c = g := by simpa using hi
          obtain ⟨htask, hpred⟩ := List.mem_filter.mp (by
            rw [nextGroup_eq_filter] at ht; exact ht)
          rw [Bool.and_eq_true, Bool.not_eq_true'] at hpred
          obtain ⟨hnc, hcr⟩ := hpred
          constructor
          · exact ⟨contains_eq_false_iff.mp hnc, by simp [idsOf]⟩
          · intro ds hds d hd
            left
            unfold canRunId at hcr
            rw [hds] at hcr
            rw [List.all_eq_true] at hcr
            exact contains_eq_true_iff.mp (hcr d hd)
        | succ i' =>
          rw [List.getElem?_cons_succ] at hi
          have hmain := ih (insertIds c (nextGroup p c)) i' g hi t ht
          obtain ⟨⟨hn1, hn2⟩, hdep⟩ := hmain
          have hnc : t.id ∉ c := fun hm => hn1 (mem_insertIds.mpr (Or.inl hm))
          have hng : t.id ∉ idsOf (nextGroup p c) := by
            intro hm
            obtain ⟨u, hu, huid⟩ := mem_idsOf.mp hm
            exact hn1 (mem_insertIds.mpr (Or.inr ⟨u, hu, huid⟩))
          constructor
          · refine ⟨hnc, ?_⟩
            rw [List.take_succ_cons, List.flatten_cons]
            unfold idsOf
            rw [List.map_append, List.mem_append]
            rintro (hm | hm)
            · exact hng hm
            · exact hn2 hm
          · intro ds hds d hd
            rcases hdep ds hds d hd with hm | hm
            · rcases mem_insertIds.mp hm with hm | ⟨u, hu, huid⟩
              · exact Or.inl hm
              · right
                rw [List.take_succ_cons, List.flatten_cons]
                unfold idsOf
                rw [List.map_append, List.mem_append]
                exact Or.inl (mem_idsOf.mpr ⟨u, hu, huid⟩)
            · right
              rw [List.take_succ_cons, List.flatten_cons]
              unfold idsOf
              rw [List.map_append, List.mem_append]
              exact Or.inr hm

/-- Ids occurring in the first `i` groups are exactly the ids occurring in
some group of index `k < i`. -/
theorem mem_idsOf_take_flatten {l : List (List Task)} {i : Nat} {x : Nat} :
    x ∈ idsOf ((l.take i).flatten) ↔
      ∃ k, k < i ∧ ∃ g, l[k]? = some g ∧ x ∈ idsOf g := by
  induction l generalizing i with
  | nil =>
    simp [idsOf]
  | cons a l ih =>
    cases i with
    | zero => simp [idsOf]
    | succ i' =>
      rw [List.take_succ_cons, List.flatten_cons]
      unfold idsOf
      rw [List.map_append, List.mem_append]
      constructor
      · rintro (hm | hm)
        · exact ⟨0, Nat.succ_pos i', a, List.getElem?_cons_zero, hm⟩
        · obtain ⟨k, hk, g, hg, hmem⟩ := ih.mp hm
          exact ⟨k + 1, by omega, g, by rw [List.getElem?_cons_succ]; exact hg, hmem⟩
      · rintro ⟨k, hk, g, hg, hmem⟩
        cases k with
        | zero =>
          rw [List.getElem?_cons_zero] at hg
          obtain rfl : a = g := by simpa using hg
          exact Or.inl hmem
        | succ k' =>
          rw [List.getElem?_cons_succ] at hg
          exact Or.inr (ih.mpr ⟨k', by omega, g, hg, hmem⟩)

/-- Concrete plan: tasks A, B, C where B depends on A and C depends on B. -/
def chainPlan : ExecutionPlan :=
  (((ExecutionPlan.new
      [Task.new 0 "A", Task.new 1 "B", Task.new 2 "C"]).add_dependency 1 0).add_dependency 2 1)

/-- Concrete plan: three tasks with no dependencies. -/
def freePlan : ExecutionPlan :=
  ExecutionPlan.new [Task.new 0 "A", Task.new 1 "B", Task.new 2 "C"]

end Askai

namespace Askai

/-- C1: for every `ExecutionPlan` whose dependency map is acyclic and
references only ids of tasks in the task list, with `can_parallelize` true
and a non-empty task list, `get_parallel_groups` places each task in
exactly one group (the groups concatenate to a permutation of the task
list and have pairwise-disjoint id sets), and a task's group index is
strictly greater than the group index of every task it depends on.  In
particular, tasks A,B,C with B depending on A and C depending on B yield
the singleton groups [[A],[B],[C]] in order, and three independent tasks
yield one group of three. -/
theorem C1_get_parallel_groups_spec :
    (∀ (p : ExecutionPlan), p.can_parallelize = true → p.tasks ≠ [] →
      AcyclicDeps p.dependencies → DepsRefValid p →
      ((p.get_parallel_groups.flatten).Perm p.tasks ∧
       (∀ (i j : Nat) (gi gj : List Task), p.get_parallel_groups[i]? = some gi →
          p.get_parallel_groups[j]? = some gj → i < j →
          ∀ t ∈ gj, t.id ∉ idsOf gi) ∧
       (∀ (i j : Nat) (gi gj : List Task), p.get_parallel_groups[i]? = some gi →
          p.get_parallel_groups[j]? = some gj →
          ∀ t ∈ gi, ∀ ds, lookupDeps p.dependencies t.id = some ds →
          ∀ u ∈ gj, u.id ∈ ds → j < i))) ∧
    chainPlan.get_parallel_groups =
      [[Task.new 0 "A"], [Task.new 1 "B"], [Task.new 2 "C"]] ∧
    freePlan.get_parallel_groups =
      [[Task.new 0 "A", Task.new 1 "B", Task.new 2 "C"]] := by
  refine ⟨?_, by decide, by decide⟩
  intro p hpar hne hacyc href
  obtain ⟨r, hrank⟩ := hacyc
  have hgs : p.get_parallel_groups = groupsLoop p (p.tasks.length + 1) [] := by
    rw [ExecutionPlan.get_parallel_groups, hpar]
    rw [if_neg]
    simp only [Bool.not_true, Bool.false_or, Bool.not_eq_true]
    rw [← Bool.not_eq_true, List.isEmpty_iff]
    exact hne
  refine ⟨?_, ?_, ?_⟩
  · rw [hgs]
    have hperm := groupsLoop_flatten_perm p r hrank href (p.tasks.length + 1) []
      List.nodup_nil (by intro x hx; cases hx) (by simp)
    have hrem : remaining p [] = p.tasks :=
      List.filter_eq_self.mpr (fun a _ => rfl)
    rw [hrem] at hperm
    exact hperm
  · intro i j gi gj hgi hgj hij t htj
    rw [hgs] at hgi hgj
    intro hmem
    have hplaced := groupsLoop_placed p (p.tasks.length + 1) [] j gj hgj t htj
    exact hplaced.1.2 (mem_idsOf_take_flatten.mpr ⟨i, hij, gi, hgi, hmem⟩)
  · intro i j gi gj hgi hgj t hti ds hds u huj huid
    rw [hgs] at hgi hgj
    have hplaced_t := groupsLoop_placed p (p.tasks.length + 1) [] i gi hgi t hti
    have hplaced_u := groupsLoop_placed p (p.tasks.length + 1) [] j gj hgj u huj
    rcases hplaced_t.2 ds hds u.id huid with hc | hc
    · cases hc
    · obtain ⟨k, hki, g', hg', hmem⟩ := mem_idsOf_take_flatten.mp hc
      by_contra hji
      push_neg at hji
      exact hplaced_u.1.2 (mem_idsOf_take_flatten.mpr ⟨k, by omega, g', hg', hmem⟩)

/-- Witness for C1: the general statement applied to the concrete
chain plan, with every hypothesis discharged there. -/
theorem C1_get_parallel_groups_spec_witness :
    (chainPlan.get_parallel_groups.flatten).Perm chainPlan.tasks :=
  (C1_get_parallel_groups_spec.1 chainPlan (by decide) (by decide)
    ⟨fun n => n, by decide⟩ (by decide)).1

/-! ## SHA-256 (the `sha2` crate as used by `ResponseCache::cache_key`)

A faithful executable SHA-256 (FIPS 180-4) over byte lists.  The round
and initialisation constants are computed from their definition — the
fractional parts of the cube and square roots of the first primes — via
integer root extraction, rather than transcribed, to rule out copying
mistakes. -/

/-- Numbers are 32-bit words: reduction modulus. -/
def w32 : Nat := 4294967296

def add32 (a b : Nat) : Nat := (a + b) % w32

/-- Bitwise complement within 32 bits (operands are reduced mod `w32`). -/
def not32 (x : Nat) : Nat := 4294967295 - x % w32

/-- Right rotation of a 32-bit word. -/
def rotr32 (x n : Nat) : Nat :=
  ((x % w32) >>> n) ||| (((x % w32) % (2 ^ n)) <<< (32 - n))

/-- Binary search step for the integer cube root. -/
def cbrtGo (n : Nat) : Nat → Nat → Nat → Nat
  | 0, lo, _ => lo
  | fuel + 1, lo, hi =>
    if hi ≤ lo + 1 then lo
    else
      let mid := (lo + hi) / 2
      if mid * mid * mid ≤ n then cbrtGo n fuel mid hi else cbrtGo n fuel lo mid

/-- Integer cube root (largest `c` with `c^3 ≤ n`). -/
def icbrt (n : Nat) : Nat := cbrtGo n 200 0 (n + 1)

/-- The first 64 primes, sources of the SHA-256 constants. -/
def primes64 : List Nat :=
  [2, 3, 5, 7, 11, 13, 17, 19, 23, 29, 31, 37, 41, 43, 47, 53,
   59, 61, 67, 71, 73, 79, 83, 89, 97, 101, 103, 107, 109, 113, 127, 131,
   137, 139, 149, 151, 157, 163, 167, 173, 179, 181, 191, 193, 197, 199, 211, 223,
   227, 229, 233, 239, 241, 251, 257, 263, 269, 271, 277, 281, 283, 293, 307, 311]

/-- Binary search step for the integer square root. -/
def sqrtGo (n : Nat) : Nat → Nat → Nat → Nat
  | 0, lo, _ => lo
  | fuel + 1, lo, hi =>
    if hi ≤ lo + 1 then lo
    else
      let mid := (lo + hi) / 2
      if mid * mid ≤ n then sqrtGo n fuel mid hi else sqrtGo n fuel lo mid

/-- Integer square root (largest `c` with `c^2 ≤ n`). -/
def isqrt (n : Nat) : Nat := sqrtGo n 200 0 (n + 1)

/-- Round constants: first 32 bits of the fractional parts of the cube
roots of the first 64 primes, as literals (the sha2 crate hardcodes
them); `roundK_eq` below rederives them from the primes. -/
def roundK : List Nat :=
  [1116352408, 1899447441, 3049323471, 3921009573, 961987163, 1508970993,
   2453635748, 2870763221, 3624381080, 310598401, 607225278, 1426881987,
   1925078388, 2162078206, 2614888103, 3248222580, 3835390401, 4022224774,
   264347078, 604807628, 770255983, 1249150122, 1555081692, 1996064986,
   2554220882, 2821834349, 2952996808, 3210313671, 3336571891, 3584528711,
   113926993, 338241895, 666307205, 773529912, 1294757372, 1396182291,
   1695183700, 1986661051, 2177026350, 2456956037, 2730485921, 2820302411,
   3259730800, 3345764771, 3516065817, 3600352804, 4094571909, 275423344,
   430227734, 506948616, 659060556, 883997877, 958139571, 1322822218,
   1537002063, 1747873779, 1955562222, 2024104815, 2227730452, 2361852424,
   2428436474, 2756734187, 3204031479, 3329325298]

/-- Initial hash value: first 32 bits of the fractional parts of the
square roots of the first 8 primes; rederived by `initH_eq`. -/
def initH : List Nat :=
  [1779033703, 3144134277, 1013904242, 2773480762, 1359893119, 2600822924, 528734635, 1541459225]

set_option maxRecDepth 8000 in
theorem roundK_eq : roundK = primes64.map (fun p => icbrt (p * 2 ^ 96) % w32) := by
  decide

set_option maxRecDepth 8000 in
theorem initH_eq : initH = (primes64.take 8).map (fun p => isqrt (p * 2 ^ 64) % w32) := by
  decide

def smallSigma0 (x : Nat) : Nat :=
  (rotr32 x 7) ^^^ (rotr32 x 18) ^^^ ((x % w32) >>> 3)

def smallSigma1 (x : Nat) : Nat :=
  (rotr32 x 17) ^^^ (rotr32 x 19) ^^^ ((x % w32) >>> 10)

def bigSigma0 (x : Nat) : Nat :=
  (rotr32 x 2) ^^^ (rotr32 x 13) ^^^ (rotr32 x 22)

def bigSigma1 (x : Nat) : Nat :=
  (rotr32 x 6) ^^^ (rotr32 x 11) ^^^ (rotr32 x 25)

/-- SHA-256 padding: append `0x80`, zeros, and the 64-bit big-endian bit
length, to a multiple of 64 bytes. -/
def padMessage (msg : List Nat) : List Nat :=
  let padZeros := (119 - msg.length % 64) % 64
  msg ++ [128] ++ List.replicate padZeros 0 ++
    (List.range 8).map (fun i => ((msg.length * 8) >>> (8 * (7 - i))) % 256)

/-- Split into 64-byte blocks. -/
def chunks64 : Nat → List Nat → List (List Nat)
  | 0, _ => []
  | fuel + 1, l => if l.isEmpty then [] else l.take 64 :: chunks64 fuel (l.drop 64)

/-- The 16 initial 32-bit big-endian words of a block. -/
def toWords (block : List Nat) : List Nat :=
  (List.range 16).map (fun i =>
    (block.getD (4 * i) 0) * 16777216 + (block.getD (4 * i + 1) 0) * 65536 +
      (block.getD (4 * i + 2) 0) * 256 + block.getD (4 * i + 3) 0)

/-- Message-schedule extension from 16 to 64 words. -/
def extendWords : Nat → List Nat → List Nat
  | 0, ws => ws
  | fuel + 1, ws =>
    let i := ws.length
    extendWords fuel (ws ++
      [add32 (add32 (smallSigma1 (ws.getD (i - 2) 0)) (ws.getD (i - 7) 0))
        (add32 (smallSigma0 (ws.getD (i - 15) 0)) (ws.getD (i - 16) 0))])

/-- One compression round on the eight-word state. -/
def compressRound (st : List Nat) (k w : Nat) : List Nat :=
  let a := st.getD 0 0
  let b := st.getD 1 0
  let c := st.getD 2 0
  let d := st.getD 3 0
  let e := st.getD 4 0
  let f := st.getD 5 0
  let g := st.getD 6 0
  let h := st.getD 7 0
  let ch := (e &&& f) ^^^ ((not32 e) &&& g)
  let maj := (a &&& b) ^^^ (a &&& c) ^^^ (b &&& c)
  let t1 := add32 (add32 (add32 h (bigSigma1 e)) (add32 ch k)) w
  let t2 := add32 (bigSigma0 a) maj
  [add32 t1 t2, a, b, c, add32 d t1, e, f, g]

/-- Application of successive compression rounds, one per `(k, w)` pair. -/
def applyRounds : List Nat → List (Nat × Nat) → List Nat
  | st, [] => st
  | st, kw :: rest => applyRounds (compressRound st kw.1 kw.2) rest

/-- Compression of one 64-byte block. -/
def compressBlock (hs block : List Nat) : List Nat :=
  (List.range 8).map (fun i => add32 (hs.getD i 0)
    ((applyRounds hs (roundK.zip (extendWords 48 (toWords block)))).getD i 0))

/-- SHA-256 digest of a byte list, as eight 32-bit words. -/
def sha256Words (msg : List Nat) : List Nat :=
  (chunks64 (msg.length + 74) (padMessage msg)).foldl compressBlock initH

def hexDigit (n : Nat) : Char :=
  if n < 10 then Char.ofNat (48 + n) else Char.ofNat (87 + n)

/-- Lower-case hex of a 32-bit word (Rust `format!("{:x}", ...)` on the digest). -/
def wordToHex (w : Nat) : List Char :=
  (List.range 8).map (fun i => hexDigit ((w >>> (4 * (7 - i))) % 16))

/-- Hex-encoded SHA-256 digest of a byte list. -/
def sha256Hex (msg : List Nat) : String :=
  String.mk ((sha256Words msg).map wordToHex).flatten

/-- UTF-8 encoding of one character (Rust `str::as_bytes` semantics). -/
def utf8EncodeChar (c : Char) : List Nat :=
  let n := c.toNat
  if n < 128 then [n]
  else if n < 2048 then [192 + n / 64, 128 + n % 64]
  else if n < 65536 then [224 + n / 4096, 128 + (n / 64) % 64, 128 + n % 64]
  else [240 + n / 262144, 128 + (n / 4096) % 64, 128 + (n / 64) % 64, 128 + n % 64]

/-- UTF-8 bytes of a string (Rust `str::as_bytes`). -/
def utf8Bytes (s : String) : List Nat :=
  (s.data.map utf8EncodeChar).flatten


/-! ### Chunked evaluation lemmas for SHA-256 -/

theorem extendWords_add (a b : Nat) :
    ∀ ws : List Nat, extendWords (a + b) ws = extendWords b (extendWords a ws) := by
  induction a with
  | zero =>
    intro ws
    rw [Nat.zero_add]
    rfl
  | succ a ih =>
    intro ws
    rw [show a + 1 + b = (a + b) + 1 by omega]
    rw [extendWords, extendWords]
    exact ih _

theorem applyRounds_append (l1 l2 : List (Nat × Nat)) :
    ∀ st : List Nat, applyRounds st (l1 ++ l2) = applyRounds (applyRounds st l1) l2 := by
  induction l1 with
  | nil => intro st; rfl
  | cons kw rest ih =>
    intro st
    rw [List.cons_append, applyRounds, applyRounds]
    exact ih _

/-! ## Response cache (`src/cache/response.rs`) -/

/-- Rust `CacheEntry`.  The `chrono` timestamp is modelled as epoch
seconds; `hit_count` is a `u32` whose values in any realistic run stay
far below `2^32`, modelled as `Nat`. -/
structure CacheEntry where
  command : String
  timestamp : Nat
  hit_count : Nat
deriving DecidableEq, Repr

/-- Rust `ResponseCache`.  The `HashMap<String, CacheEntry>` is an
association list with unique keys; `ttl` is `Duration::as_secs`;
the `cache_file` path and all disk I/O are modelled by explicit
disk-content parameters on `load_from_disk`/`new`. -/
structure ResponseCache where
  cache : List (String × CacheEntry)
  ttl : Nat
  max_entries : Nat
deriving DecidableEq, Repr

/-- The hashed input `prompt || "|" || context` (`124` is the byte of the
separator bar). -/
def msgBytes (prompt context : String) : List Nat :=
  utf8Bytes prompt ++ [124] ++ utf8Bytes context

/-- Rust `ResponseCache::cache_key`: hex-encoded SHA-256 over
`prompt`, a separator, and `context`. -/
def cache_key (prompt context : String) : String :=
  sha256Hex (msgBytes prompt context)

/-- Rust `HashMap::get` on the cache map. -/
def assocGet (m : List (String × CacheEntry)) (k : String) : Option CacheEntry :=
  (m.find? (fun e => e.1 = k)).map (·.2)

/-- Rust `HashMap::insert`: replace the entry of an existing key in
place, or add a new one. -/
def assocInsert : List (String × CacheEntry) → String → CacheEntry →
    List (String × CacheEntry)
  | [], k, v => [(k, v)]
  | (kk, vv) :: rest, k, v =>
    if kk = k then (k, v) :: rest else (kk, vv) :: assocInsert rest k v

/-- Rust `HashMap::remove`. -/
def assocRemove : List (String × CacheEntry) → String → List (String × CacheEntry)
  | [], _ => []
  | (kk, vv) :: rest, k =>
    if kk = k then rest else (kk, vv) :: assocRemove rest k

/-- Rust `ResponseCache::get`.  Takes the current time explicitly and
returns the result together with the updated cache state. -/
def ResponseCache.get (c : ResponseCache) (prompt context : String) (now : Nat) :
    Option String × ResponseCache :=
  match assocGet c.cache (cache_key prompt context) with
  | some entry =>
    if (now : Int) - (entry.timestamp : Int) < (c.ttl : Int) then
      (some entry.command, { c with cache := assocInsert c.cache (cache_key prompt context) ({ entry with hit_count := entry.hit_count + 1 }) })
    else
      (none, { c with cache := assocRemove c.cache (cache_key prompt context) })
  | none => (none, c)

/-- The key selected by `evict_oldest`: `min_by_key` over timestamps,
first minimum in iteration order. -/
def evictKey (m : List (String × CacheEntry)) : Option String :=
  match m with
  | [] => none
  | e :: rest =>
    some ((rest.foldl (fun best x =>
      if x.2.timestamp < best.2.timestamp then x else best) e).1)

/-- Rust `ResponseCache::evict_oldest`. -/
def ResponseCache.evict_oldest (c : ResponseCache) : ResponseCache :=
  match evictKey c.cache with
  | some k => { c with cache := assocRemove c.cache k }
  | none => c

/-- Rust `ResponseCache::set`: evict if at capacity, then insert a fresh
entry with `hit_count = 0` and the current timestamp. -/
def ResponseCache.set (c : ResponseCache) (prompt context command : String)
    (now : Nat) : ResponseCache :=
  let c1 := if c.max_entries ≤ c.cache.length then c.evict_oldest else c
  { c1 with cache := assocInsert c1.cache (cache_key prompt context) ({ command := command, timestamp := now, hit_count := 0 }) }

/-- Rust `ResponseCache::load_from_disk`: `none` models a missing or
unparsable snapshot (cache left unchanged), `some m` a parsed snapshot
that replaces the in-memory map wholesale. -/
def ResponseCache.load_from_disk (c : ResponseCache)
    (disk : Option (List (String × CacheEntry))) : ResponseCache :=
  match disk with
  | none => c
  | some m => { c with cache := m }

/-- Rust `ResponseCache::new(ttl_seconds, max_entries)` followed by its
load attempt. -/
def ResponseCache.new (ttl_seconds max_entries : Nat)
    (disk : Option (List (String × CacheEntry))) : ResponseCache :=
  ResponseCache.load_from_disk
    { cache := [], ttl := ttl_seconds, max_entries := max_entries } disk

/-- Rust `ResponseCache::clear` (the snapshot-file removal is I/O). -/
def ResponseCache.clear (c : ResponseCache) : ResponseCache :=
  { c with cache := [] }

/-- Rust `CacheStats`. -/
structure CacheStats where
  total_entries : Nat
  total_hits : Nat
  max_entries : Nat
  ttl_seconds : Nat
deriving DecidableEq, Repr

/-- Rust `ResponseCache::stats`. -/
def ResponseCache.stats (c : ResponseCache) : CacheStats :=
  { total_entries := c.cache.length
    total_hits := (c.cache.map (fun e => e.2.hit_count)).sum
    max_entries := c.max_entries
    ttl_seconds := c.ttl }

/-! ### Concrete cache-key digests, evaluated in stages -/

theorem shaA_pad : padMessage [97, 124] = [97, 124, 128, 0, 0, 0, 0, 0, 0, 0, 0, 0, 0, 0, 0, 0, 0, 0, 0, 0, 0, 0, 0, 0, 0, 0, 0, 0, 0, 0, 0, 0, 0, 0, 0, 0, 0, 0, 0, 0, 0, 0, 0, 0, 0, 0, 0, 0, 0, 0, 0, 0, 0, 0, 0, 0, 0, 0, 0, 0, 0, 0, 0, 16] := by decide

theorem shaA_w16 : toWords [97, 124, 128, 0, 0, 0, 0, 0, 0, 0, 0, 0, 0, 0, 0, 0, 0, 0, 0, 0, 0, 0, 0, 0, 0, 0, 0, 0, 0, 0, 0, 0, 0, 0, 0, 0, 0, 0, 0, 0, 0, 0, 0, 0, 0, 0, 0, 0, 0, 0, 0, 0, 0, 0, 0, 0, 0, 0, 0, 0, 0, 0, 0, 16] = [1635549184, 0, 0, 0, 0, 0, 0, 0, 0, 0, 0, 0, 0, 0, 0, 16] := by decide

theorem shaA_e1 : extendWords 12 [1635549184, 0, 0, 0, 0, 0, 0, 0, 0, 0, 0, 0, 0, 0, 0, 16] = [1635549184, 0, 0, 0, 0, 0, 0, 0, 0, 0, 0, 0, 0, 0, 0, 16, 1635549184, 655360, 3491259313, 1073742468, 1033557015, 16951296, 814096347, 1652342795, 3424968660, 3358893554, 874772773, 68158540] := by decide

theorem shaA_e2 : extendWords 12 [1635549184, 0, 0, 0, 0, 0, 0, 0, 0, 0, 0, 0, 0, 0, 0, 16, 1635549184, 655360, 3491259313, 1073742468, 1033557015, 16951296, 814096347, 1652342795, 3424968660, 3358893554, 874772773, 68158540] = [1635549184, 0, 0, 0, 0, 0, 0, 0, 0, 0, 0, 0, 0, 0, 0, 16, 1635549184, 655360, 3491259313, 1073742468, 1033557015, 16951296, 814096347, 1652342795, 3424968660, 3358893554, 874772773, 68158540, 2227035243, 859088486, 3625606603, 3238355992, 253561741, 3023862743, 4177418625, 340239042, 46188419, 903897843, 2537983514, 917385528] := by decide

theorem shaA_e3 : extendWords 12 [1635549184, 0, 0, 0, 0, 0, 0, 0, 0, 0, 0, 0, 0, 0, 0, 16, 1635549184, 655360, 3491259313, 1073742468, 1033557015, 16951296, 814096347, 1652342795, 3424968660, 3358893554, 874772773, 68158540, 2227035243, 859088486, 3625606603, 3238355992, 253561741, 3023862743, 4177418625, 340239042, 46188419, 903897843, 2537983514, 917385528] = [1635549184, 0, 0, 0, 0, 0, 0, 0, 0, 0, 0, 0, 0, 0, 0, 16, 1635549184, 655360, 3491259313, 1073742468, 1033557015, 16951296, 814096347, 1652342795, 3424968660, 3358893554, 874772773, 68158540, 2227035243, 859088486, 3625606603, 3238355992, 253561741, 3023862743, 4177418625, 340239042, 46188419, 903897843, 2537983514, 917385528, 3979834507, 1385114463, 921994316, 673566149, 1893323056, 1166865897, 1376724240, 3954481806, 2131030525, 1407946601, 1981019824, 1932281644] := by decide

theorem shaA_e4 : extendWords 12 [1635549184, 0, 0, 0, 0, 0, 0, 0, 0, 0, 0, 0, 0, 0, 0, 16, 1635549184, 655360, 3491259313, 1073742468, 1033557015, 16951296, 814096347, 1652342795, 3424968660, 3358893554, 874772773, 68158540, 2227035243, 859088486, 3625606603, 3238355992, 253561741, 3023862743, 4177418625, 340239042, 46188419, 903897843, 2537983514, 917385528, 3979834507, 1385114463, 921994316, 673566149, 1893323056, 1166865897, 1376724240, 3954481806, 2131030525, 1407946601, 1981019824, 1932281644] = [1635549184, 0, 0, 0, 0, 0, 0, 0, 0, 0, 0, 0, 0, 0, 0, 16, 1635549184, 655360, 3491259313, 1073742468, 1033557015, 16951296, 814096347, 1652342795, 3424968660, 3358893554, 874772773, 68158540, 2227035243, 859088486, 3625606603, 3238355992, 253561741, 3023862743, 4177418625, 340239042, 46188419, 903897843, 2537983514, 917385528, 3979834507, 1385114463, 921994316, 673566149, 1893323056, 1166865897, 1376724240, 3954481806, 2131030525, 1407946601, 1981019824, 1932281644, 3326898309, 3080715763, 878021001, 2390485293, 893312340, 299138643, 1532254001, 3121640395, 2971859245, 2503384115, 707556561, 2282763673] := by decide

theorem shaA_ext : extendWords 48 (toWords [97, 124, 128, 0, 0, 0, 0, 0, 0, 0, 0, 0, 0, 0, 0, 0, 0, 0, 0, 0, 0, 0, 0, 0, 0, 0, 0, 0, 0, 0, 0, 0, 0, 0, 0, 0, 0, 0, 0, 0, 0, 0, 0, 0, 0, 0, 0, 0, 0, 0, 0, 0, 0, 0, 0, 0, 0, 0, 0, 0, 0, 0, 0, 16]) = [1635549184, 0, 0, 0, 0, 0, 0, 0, 0, 0, 0, 0, 0, 0, 0, 16, 1635549184, 655360, 3491259313, 1073742468, 1033557015, 16951296, 814096347, 1652342795, 3424968660, 3358893554, 874772773, 68158540, 2227035243, 859088486, 3625606603, 3238355992, 253561741, 3023862743, 4177418625, 340239042, 46188419, 903897843, 2537983514, 917385528, 3979834507, 1385114463, 921994316, 673566149, 1893323056, 1166865897, 1376724240, 3954481806, 2131030525, 1407946601, 1981019824, 1932281644, 3326898309, 3080715763, 878021001, 2390485293, 893312340, 299138643, 1532254001, 3121640395, 2971859245, 2503384115, 707556561, 2282763673] := by
  rw [shaA_w16]
  rw [show (48 : Nat) = 12 + 12 + 12 + 12 from rfl]
  rw [extendWords_add, extendWords_add, extendWords_add]
  rw [shaA_e1, shaA_e2, shaA_e3, shaA_e4]

theorem shaA_zip : roundK.zip [1635549184, 0, 0, 0, 0, 0, 0, 0, 0, 0, 0, 0, 0, 0, 0, 16, 1635549184, 655360, 3491259313, 1073742468, 1033557015, 16951296, 814096347, 1652342795, 3424968660, 3358893554, 874772773, 68158540, 2227035243, 859088486, 3625606603, 3238355992, 253561741, 3023862743, 4177418625, 340239042, 46188419, 903897843, 2537983514, 917385528, 3979834507, 1385114463, 921994316, 673566149, 1893323056, 1166865897, 1376724240, 3954481806, 2131030525, 1407946601, 1981019824, 1932281644, 3326898309, 3080715763, 878021001, 2390485293, 893312340, 299138643, 1532254001, 3121640395, 2971859245, 2503384115, 707556561, 2282763673] = [(1116352408, 1635549184), (1899447441, 0), (3049323471, 0), (3921009573, 0), (961987163, 0), (1508970993, 0), (2453635748, 0), (2870763221, 0), (3624381080, 0), (310598401, 0), (607225278, 0), (1426881987, 0), (1925078388, 0), (2162078206, 0), (2614888103, 0), (3248222580, 16), (3835390401, 1635549184), (4022224774, 655360), (264347078, 3491259313), (604807628, 1073742468), (770255983, 1033557015), (1249150122, 16951296), (1555081692, 814096347), (1996064986, 1652342795), (2554220882, 3424968660), (2821834349, 3358893554), (2952996808, 874772773), (3210313671, 68158540), (3336571891, 2227035243), (3584528711, 859088486), (113926993, 3625606603), (338241895, 3238355992), (666307205, 253561741), (773529912, 3023862743), (1294757372, 4177418625), (1396182291, 340239042), (1695183700, 46188419), (1986661051, 903897843), (2177026350, 2537983514), (2456956037, 917385528), (2730485921, 3979834507), (2820302411, 1385114463), (3259730800, 921994316), (3345764771, 673566149), (3516065817, 1893323056), (3600352804, 1166865897), (4094571909, 1376724240), (275423344, 3954481806), (430227734, 2131030525), (506948616, 1407946601), (659060556, 1981019824), (883997877, 1932281644), (958139571, 3326898309), (1322822218, 3080715763), (1537002063, 878021001), (1747873779, 2390485293), (1955562222, 893312340), (2024104815, 299138643), (2227730452, 1532254001), (2361852424, 3121640395), (2428436474, 2971859245), (2756734187, 2503384115), (3204031479, 707556561), (3329325298, 2282763673)] := by decide

theorem shaA_zsplit : ([(1116352408, 1635549184), (1899447441, 0), (3049323471, 0), (3921009573, 0), (961987163, 0), (1508970993, 0), (2453635748, 0), (2870763221, 0), (3624381080, 0), (310598401, 0), (607225278, 0), (1426881987, 0), (1925078388, 0), (2162078206, 0), (2614888103, 0), (3248222580, 16), (3835390401, 1635549184), (4022224774, 655360), (264347078, 3491259313), (604807628, 1073742468), (770255983, 1033557015), (1249150122, 16951296), (1555081692, 814096347), (1996064986, 1652342795), (2554220882, 3424968660), (2821834349, 3358893554), (2952996808, 874772773), (3210313671, 68158540), (3336571891, 2227035243), (3584528711, 859088486), (113926993, 3625606603), (338241895, 3238355992), (666307205, 253561741), (773529912, 3023862743), (1294757372, 4177418625), (1396182291, 340239042), (1695183700, 46188419), (1986661051, 903897843), (2177026350, 2537983514), (2456956037, 917385528), (2730485921, 3979834507), (2820302411, 1385114463), (3259730800, 921994316), (3345764771, 673566149), (3516065817, 1893323056), (3600352804, 1166865897), (4094571909, 1376724240), (275423344, 3954481806), (430227734, 2131030525), (506948616, 1407946601), (659060556, 1981019824), (883997877, 1932281644), (958139571, 3326898309), (1322822218, 3080715763), (1537002063, 878021001), (1747873779, 2390485293), (1955562222, 893312340), (2024104815, 299138643), (2227730452, 1532254001), (2361852424, 3121640395), (2428436474, 2971859245), (2756734187, 2503384115), (3204031479, 707556561), (3329325298, 2282763673)] : List (Nat × Nat)) = ([(1116352408, 1635549184), (1899447441, 0), (3049323471, 0), (3921009573, 0), (961987163, 0), (1508970993, 0), (2453635748, 0), (2870763221, 0)] ++ ([(3624381080, 0), (310598401, 0), (607225278, 0), (1426881987, 0), (1925078388, 0), (2162078206, 0), (2614888103, 0), (3248222580, 16)] ++ ([(3835390401, 1635549184), (4022224774, 655360), (264347078, 3491259313), (604807628, 1073742468), (770255983, 1033557015), (1249150122, 16951296), (1555081692, 814096347), (1996064986, 1652342795)] ++ ([(2554220882, 3424968660), (2821834349, 3358893554), (2952996808, 874772773), (3210313671, 68158540), (3336571891, 2227035243), (3584528711, 859088486), (113926993, 3625606603), (338241895, 3238355992)] ++ ([(666307205, 253561741), (773529912, 3023862743), (1294757372, 4177418625), (1396182291, 340239042), (1695183700, 46188419), (1986661051, 903897843), (2177026350, 2537983514), (2456956037, 917385528)] ++ ([(2730485921, 3979834507), (2820302411, 1385114463), (3259730800, 921994316), (3345764771, 673566149), (3516065817, 1893323056), (3600352804, 1166865897), (4094571909, 1376724240), (275423344, 3954481806)] ++ ([(430227734, 2131030525), (506948616, 1407946601), (659060556, 1981019824), (883997877, 1932281644), (958139571, 3326898309), (1322822218, 3080715763), (1537002063, 878021001), (1747873779, 2390485293)] ++ [(1955562222, 893312340), (2024104815, 299138643), (2227730452, 1532254001), (2361852424, 3121640395), (2428436474, 2971859245), (2756734187, 2503384115), (3204031479, 707556561), (3329325298, 2282763673)]))))))) := by decide

theorem shaA_r1 : applyRounds initH [(1116352408, 1635549184), (1899447441, 0), (3049323471, 0), (3921009573, 0), (961987163, 0), (1508970993, 0), (2453635748, 0), (2870763221, 0)] = [2581638942, 3555600336, 3075108323, 550604185, 2828715470, 3797538840, 1250990312, 1770306344] := by decide

theorem shaA_r2 : applyRounds [2581638942, 3555600336, 3075108323, 550604185, 2828715470, 3797538840, 1250990312, 1770306344] [(3624381080, 0), (310598401, 0), (607225278, 0), (1426881987, 0), (1925078388, 0), (2162078206, 0), (2614888103, 0), (3248222580, 16)] = [3097383729, 2800054251, 857360143, 688065382, 1879726238, 2151182389, 3348776757, 804573333] := by decide

theorem shaA_r3 : applyRounds [3097383729, 2800054251, 857360143, 688065382, 1879726238, 2151182389, 3348776757, 804573333] [(3835390401, 1635549184), (4022224774, 655360), (264347078, 3491259313), (604807628, 1073742468), (770255983, 1033557015), (1249150122, 16951296), (1555081692, 814096347), (1996064986, 1652342795)] = [1177401018, 1509841740, 2796875674, 3447907160, 3724523107, 3646073495, 1027815029, 3442854281] := by decide

theorem shaA_r4 : applyRounds [1177401018, 1509841740, 2796875674, 3447907160, 3724523107, 3646073495, 1027815029, 3442854281] [(2554220882, 3424968660), (2821834349, 3358893554), (2952996808, 874772773), (3210313671, 68158540), (3336571891, 2227035243), (3584528711, 859088486), (113926993, 3625606603), (338241895, 3238355992)] = [958049865, 1699793568, 2063920862, 3695333596, 3202893229, 2930845890, 3762225645, 3389362542] := by decide

theorem shaA_r5 : applyRounds [958049865, 1699793568, 2063920862, 3695333596, 3202893229, 2930845890, 3762225645, 3389362542] [(666307205, 253561741), (773529912, 3023862743), (1294757372, 4177418625), (1396182291, 340239042), (1695183700, 46188419), (1986661051, 903897843), (2177026350, 2537983514), (2456956037, 917385528)] = [1500735497, 3577238987, 2225229581, 862909574, 3234812954, 984524141, 3974066863, 4238792285] := by decide

theorem shaA_r6 : applyRounds [1500735497, 3577238987, 2225229581, 862909574, 3234812954, 984524141, 3974066863, 4238792285] [(2730485921, 3979834507), (2820302411, 1385114463), (3259730800, 921994316), (3345764771, 673566149), (3516065817, 1893323056), (3600352804, 1166865897), (4094571909, 1376724240), (275423344, 3954481806)] = [516995386, 3669034434, 2592467653, 3325112963, 874118355, 2654159581, 1268987355, 2272218817] := by decide

theorem shaA_r7 : applyRounds [516995386, 3669034434, 2592467653, 3325112963, 874118355, 2654159581, 1268987355, 2272218817] [(430227734, 2131030525), (506948616, 1407946601), (659060556, 1981019824), (883997877, 1932281644), (958139571, 3326898309), (1322822218, 3080715763), (1537002063, 878021001), (1747873779, 2390485293)] = [2985160201, 2204942610, 1412551268, 3396627967, 235018825, 885619225, 522335451, 4160454933] := by decide

theorem shaA_r8 : applyRounds [2985160201, 2204942610, 1412551268, 3396627967, 235018825, 885619225, 522335451, 4160454933] [(1955562222, 893312340), (2024104815, 299138643), (2227730452, 1532254001), (2361852424, 3121640395), (2428436474, 2971859245), (2756734187, 2503384115), (3204031479, 707556561), (3329325298, 2282763673)] = [1551504860, 2973835359, 3788594521, 4205429367, 3539661366, 799853601, 3903426524, 2887982516] := by decide

theorem shaA_rounds : applyRounds initH [(1116352408, 1635549184), (1899447441, 0), (3049323471, 0), (3921009573, 0), (961987163, 0), (1508970993, 0), (2453635748, 0), (2870763221, 0), (3624381080, 0), (310598401, 0), (607225278, 0), (1426881987, 0), (1925078388, 0), (2162078206, 0), (2614888103, 0), (3248222580, 16), (3835390401, 1635549184), (4022224774, 655360), (264347078, 3491259313), (604807628, 1073742468), (770255983, 1033557015), (1249150122, 16951296), (1555081692, 814096347), (1996064986, 1652342795), (2554220882, 3424968660), (2821834349, 3358893554), (2952996808, 874772773), (3210313671, 68158540), (3336571891, 2227035243), (3584528711, 859088486), (113926993, 3625606603), (338241895, 3238355992), (666307205, 253561741), (773529912, 3023862743), (1294757372, 4177418625), (1396182291, 340239042), (1695183700, 46188419), (1986661051, 903897843), (2177026350, 2537983514), (2456956037, 917385528), (2730485921, 3979834507), (2820302411, 1385114463), (3259730800, 921994316), (3345764771, 673566149), (3516065817, 1893323056), (3600352804, 1166865897), (4094571909, 1376724240), (275423344, 3954481806), (430227734, 2131030525), (506948616, 1407946601), (659060556, 1981019824), (883997877, 1932281644), (958139571, 3326898309), (1322822218, 3080715763), (1537002063, 878021001), (1747873779, 2390485293), (1955562222, 893312340), (2024104815, 299138643), (2227730452, 1532254001), (2361852424, 3121640395), (2428436474, 2971859245), (2756734187, 2503384115), (3204031479, 707556561), (3329325298, 2282763673)] = [1551504860, 2973835359, 3788594521, 4205429367, 3539661366, 799853601, 3903426524, 2887982516] := by
  rw [shaA_zsplit]
  rw [applyRounds_append, shaA_r1, applyRounds_append, shaA_r2, applyRounds_append, shaA_r3, applyRounds_append, shaA_r4, applyRounds_append, shaA_r5, applyRounds_append, shaA_r6, applyRounds_append, shaA_r7, shaA_r8]

theorem shaA_cb : compressBlock initH [97, 124, 128, 0, 0, 0, 0, 0, 0, 0, 0, 0, 0, 0, 0, 0, 0, 0, 0, 0, 0, 0, 0, 0, 0, 0, 0, 0, 0, 0, 0, 0, 0, 0, 0, 0, 0, 0, 0, 0, 0, 0, 0, 0, 0, 0, 0, 0, 0, 0, 0, 0, 0, 0, 0, 0, 0, 0, 0, 0, 0, 0, 0, 16] = [3330538563, 1823002340, 507531467, 2683942833, 604587189, 3400676525, 137193863, 134474445] := by
  unfold compressBlock
  simp only [shaA_ext, shaA_zip, shaA_rounds]
  decide

theorem shaA_chunks : chunks64 76 (padMessage [97, 124]) = [[97, 124, 128, 0, 0, 0, 0, 0, 0, 0, 0, 0, 0, 0, 0, 0, 0, 0, 0, 0, 0, 0, 0, 0, 0, 0, 0, 0, 0, 0, 0, 0, 0, 0, 0, 0, 0, 0, 0, 0, 0, 0, 0, 0, 0, 0, 0, 0, 0, 0, 0, 0, 0, 0, 0, 0, 0, 0, 0, 0, 0, 0, 0, 16]] := by
  rw [shaA_pad]
  decide

theorem shaA_words : sha256Words [97, 124] = [3330538563, 1823002340, 507531467, 2683942833, 604587189, 3400676525, 137193863, 134474445] := by
  unfold sha256Words
  rw [show ([97, 124] : List Nat).length + 74 = 76 from rfl]
  rw [shaA_chunks]
  simp only [List.foldl_cons, List.foldl_nil]
  exact shaA_cb

theorem keyA_hex : cache_key "a" "" = "c683fc436ca8cee41e4050cb9ff9b7b1240944b5cab234ad082d69870803eacd" := by
  unfold cache_key
  rw [show msgBytes "a" "" = [97, 124] from by decide]
  unfold sha256Hex
  rw [shaA_words]
  decide

theorem shaB_pad : padMessage [98, 124] = [98, 124, 128, 0, 0, 0, 0, 0, 0, 0, 0, 0, 0, 0, 0, 0, 0, 0, 0, 0, 0, 0, 0, 0, 0, 0, 0, 0, 0, 0, 0, 0, 0, 0, 0, 0, 0, 0, 0, 0, 0, 0, 0, 0, 0, 0, 0, 0, 0, 0, 0, 0, 0, 0, 0, 0, 0, 0, 0, 0, 0, 0, 0, 16] := by decide

theorem shaB_w16 : toWords [98, 124, 128, 0, 0, 0, 0, 0, 0, 0, 0, 0, 0, 0, 0, 0, 0, 0, 0, 0, 0, 0, 0, 0, 0, 0, 0, 0, 0, 0, 0, 0, 0, 0, 0, 0, 0, 0, 0, 0, 0, 0, 0, 0, 0, 0, 0, 0, 0, 0, 0, 0, 0, 0, 0, 0, 0, 0, 0, 0, 0, 0, 0, 16] = [1652326400, 0, 0, 0, 0, 0, 0, 0, 0, 0, 0, 0, 0, 0, 0, 16] := by decide

theorem shaB_e1 : extendWords 12 [1652326400, 0, 0, 0, 0, 0, 0, 0, 0, 0, 0, 0, 0, 0, 0, 16] = [1652326400, 0, 0, 0, 0, 0, 0, 0, 0, 0, 0, 0, 0, 0, 0, 16, 1652326400, 655360, 3491275345, 1073742468, 1163318311, 16951296, 2961579972, 1669120011, 3426807764, 3358893362, 2854482455, 191104092] := by decide

theorem shaB_e2 : extendWords 12 [1652326400, 0, 0, 0, 0, 0, 0, 0, 0, 0, 0, 0, 0, 0, 0, 16, 1652326400, 655360, 3491275345, 1073742468, 1163318311, 16951296, 2961579972, 1669120011, 3426807764, 3358893362, 2854482455, 191104092] = [1652326400, 0, 0, 0, 0, 0, 0, 0, 0, 0, 0, 0, 0, 0, 0, 16, 1652326400, 655360, 3491275345, 1073742468, 1163318311, 16951296, 2961579972, 1669120011, 3426807764, 3358893362, 2854482455, 191104092, 2288406697, 858619299, 1709485240, 171284015, 1854193817, 3040226392, 3554800292, 2400844636, 3923291594, 1112426671, 684576589, 1262095061] := by decide

theorem shaB_e3 : extendWords 12 [1652326400, 0, 0, 0, 0, 0, 0, 0, 0, 0, 0, 0, 0, 0, 0, 16, 1652326400, 655360, 3491275345, 1073742468, 1163318311, 16951296, 2961579972, 1669120011, 3426807764, 3358893362, 2854482455, 191104092, 2288406697, 858619299, 1709485240, 171284015, 1854193817, 3040226392, 3554800292, 2400844636, 3923291594, 1112426671, 684576589, 1262095061] = [1652326400, 0, 0, 0, 0, 0, 0, 0, 0, 0, 0, 0, 0, 0, 0, 16, 1652326400, 655360, 3491275345, 1073742468, 1163318311, 16951296, 2961579972, 1669120011, 3426807764, 3358893362, 2854482455, 191104092, 2288406697, 858619299, 1709485240, 171284015, 1854193817, 3040226392, 3554800292, 2400844636, 3923291594, 1112426671, 684576589, 1262095061, 899051033, 2798595452, 3966636463, 1051429704, 3036209946, 1746355465, 1505428940, 2570546003, 611859422, 704444855, 55932420, 3415477257] := by decide

theorem shaB_e4 : extendWords 12 [1652326400, 0, 0, 0, 0, 0, 0, 0, 0, 0, 0, 0, 0, 0, 0, 16, 1652326400, 655360, 3491275345, 1073742468, 1163318311, 16951296, 2961579972, 1669120011, 3426807764, 3358893362, 2854482455, 191104092, 2288406697, 858619299, 1709485240, 171284015, 1854193817, 3040226392, 3554800292, 2400844636, 3923291594, 1112426671, 684576589, 1262095061, 899051033, 2798595452, 3966636463, 1051429704, 3036209946, 1746355465, 1505428940, 2570546003, 611859422, 704444855, 55932420, 3415477257] = [1652326400, 0, 0, 0, 0, 0, 0, 0, 0, 0, 0, 0, 0, 0, 0, 16, 1652326400, 655360, 3491275345, 1073742468, 1163318311, 16951296, 2961579972, 1669120011, 3426807764, 3358893362, 2854482455, 191104092, 2288406697, 858619299, 1709485240, 171284015, 1854193817, 3040226392, 3554800292, 2400844636, 3923291594, 1112426671, 684576589, 1262095061, 899051033, 2798595452, 3966636463, 1051429704, 3036209946, 1746355465, 1505428940, 2570546003, 611859422, 704444855, 55932420, 3415477257, 748211335, 274460794, 1663170573, 2772979719, 1233031072, 2458778790, 3283270080, 3361198290, 2681078979, 812738247, 815926115, 949869428] := by decide

theorem shaB_ext : extendWords 48 (toWords [98, 124, 128, 0, 0, 0, 0, 0, 0, 0, 0, 0, 0, 0, 0, 0, 0, 0, 0, 0, 0, 0, 0, 0, 0, 0, 0, 0, 0, 0, 0, 0, 0, 0, 0, 0, 0, 0, 0, 0, 0, 0, 0, 0, 0, 0, 0, 0, 0, 0, 0, 0, 0, 0, 0, 0, 0, 0, 0, 0, 0, 0, 0, 16]) = [1652326400, 0, 0, 0, 0, 0, 0, 0, 0, 0, 0, 0, 0, 0, 0, 16, 1652326400, 655360, 3491275345, 1073742468, 1163318311, 16951296, 2961579972, 1669120011, 3426807764, 3358893362, 2854482455, 191104092, 2288406697, 858619299, 1709485240, 171284015, 1854193817, 3040226392, 3554800292, 2400844636, 3923291594, 1112426671, 684576589, 1262095061, 899051033, 2798595452, 3966636463, 1051429704, 3036209946, 1746355465, 1505428940, 2570546003, 611859422, 704444855, 55932420, 3415477257, 748211335, 274460794, 1663170573, 2772979719, 1233031072, 2458778790, 3283270080, 3361198290, 2681078979, 812738247, 815926115, 949869428] := by
  rw [shaB_w16]
  rw [show (48 : Nat) = 12 + 12 + 12 + 12 from rfl]
  rw [extendWords_add, extendWords_add, extendWords_add]
  rw [shaB_e1, shaB_e2, shaB_e3, shaB_e4]

theorem shaB_zip : roundK.zip [1652326400, 0, 0, 0, 0, 0, 0, 0, 0, 0, 0, 0, 0, 0, 0, 16, 1652326400, 655360, 3491275345, 1073742468, 1163318311, 16951296, 2961579972, 1669120011, 3426807764, 3358893362, 2854482455, 191104092, 2288406697, 858619299, 1709485240, 171284015, 1854193817, 3040226392, 3554800292, 2400844636, 3923291594, 1112426671, 684576589, 1262095061, 899051033, 2798595452, 3966636463, 1051429704, 3036209946, 1746355465, 1505428940, 2570546003, 611859422, 704444855, 55932420, 3415477257, 748211335, 274460794, 1663170573, 2772979719, 1233031072, 2458778790, 3283270080, 3361198290, 2681078979, 812738247, 815926115, 949869428] = [(1116352408, 1652326400), (1899447441, 0), (3049323471, 0), (3921009573, 0), (961987163, 0), (1508970993, 0), (2453635748, 0), (2870763221, 0), (3624381080, 0), (310598401, 0), (607225278, 0), (1426881987, 0), (1925078388, 0), (2162078206, 0), (2614888103, 0), (3248222580, 16), (3835390401, 1652326400), (4022224774, 655360), (264347078, 3491275345), (604807628, 1073742468), (770255983, 1163318311), (1249150122, 16951296), (1555081692, 2961579972), (1996064986, 1669120011), (2554220882, 3426807764), (2821834349, 3358893362), (2952996808, 2854482455), (3210313671, 191104092), (3336571891, 2288406697), (3584528711, 858619299), (113926993, 1709485240), (338241895, 171284015), (666307205, 1854193817), (773529912, 3040226392), (1294757372, 3554800292), (1396182291, 2400844636), (1695183700, 3923291594), (1986661051, 1112426671), (2177026350, 684576589), (2456956037, 1262095061), (2730485921, 899051033), (2820302411, 2798595452), (3259730800, 3966636463), (3345764771, 1051429704), (3516065817, 3036209946), (3600352804, 1746355465), (4094571909, 1505428940), (275423344, 2570546003), (430227734, 611859422), (506948616, 704444855), (659060556, 55932420), (883997877, 3415477257), (958139571, 748211335), (1322822218, 274460794), (1537002063, 1663170573), (1747873779, 2772979719), (1955562222, 1233031072), (2024104815, 2458778790), (2227730452, 3283270080), (2361852424, 3361198290), (2428436474, 2681078979), (2756734187, 812738247), (3204031479, 815926115), (3329325298, 949869428)] := by decide

theorem shaB_zsplit : ([(1116352408, 1652326400), (1899447441, 0), (3049323471, 0), (3921009573, 0), (961987163, 0), (1508970993, 0), (2453635748, 0), (2870763221, 0), (3624381080, 0), (310598401, 0), (607225278, 0), (1426881987, 0), (1925078388, 0), (2162078206, 0), (2614888103, 0), (3248222580, 16), (3835390401, 1652326400), (4022224774, 655360), (264347078, 3491275345), (604807628, 1073742468), (770255983, 1163318311), (1249150122, 16951296), (1555081692, 2961579972), (1996064986, 1669120011), (2554220882, 3426807764), (2821834349, 3358893362), (2952996808, 2854482455), (3210313671, 191104092), (3336571891, 2288406697), (3584528711, 858619299), (113926993, 1709485240), (338241895, 171284015), (666307205, 1854193817), (773529912, 3040226392), (1294757372, 3554800292), (1396182291, 2400844636), (1695183700, 3923291594), (1986661051, 1112426671), (2177026350, 684576589), (2456956037, 1262095061), (2730485921, 899051033), (2820302411, 2798595452), (3259730800, 3966636463), (3345764771, 1051429704), (3516065817, 3036209946), (3600352804, 1746355465), (4094571909, 1505428940), (275423344, 2570546003), (430227734, 611859422), (506948616, 704444855), (659060556, 55932420), (883997877, 3415477257), (958139571, 748211335), (1322822218, 274460794), (1537002063, 1663170573), (1747873779, 2772979719), (1955562222, 1233031072), (2024104815, 2458778790), (2227730452, 3283270080), (2361852424, 3361198290), (2428436474, 2681078979), (2756734187, 812738247), (3204031479, 815926115), (3329325298, 949869428)] : List (Nat × Nat)) = ([(1116352408, 1652326400), (1899447441, 0), (3049323471, 0), (3921009573, 0), (961987163, 0), (1508970993, 0), (2453635748, 0), (2870763221, 0)] ++ ([(3624381080, 0), (310598401, 0), (607225278, 0), (1426881987, 0), (1925078388, 0), (2162078206, 0), (2614888103, 0), (3248222580, 16)] ++ ([(3835390401, 1652326400), (4022224774, 655360), (264347078, 3491275345), (604807628, 1073742468), (770255983, 1163318311), (1249150122, 16951296), (1555081692, 2961579972), (1996064986, 1669120011)] ++ ([(2554220882, 3426807764), (2821834349, 3358893362), (2952996808, 2854482455), (3210313671, 191104092), (3336571891, 2288406697), (3584528711, 858619299), (113926993, 1709485240), (338241895, 171284015)] ++ ([(666307205, 1854193817), (773529912, 3040226392), (1294757372, 3554800292), (1396182291, 2400844636), (1695183700, 3923291594), (1986661051, 1112426671), (2177026350, 684576589), (2456956037, 1262095061)] ++ ([(2730485921, 899051033), (2820302411, 2798595452), (3259730800, 3966636463), (3345764771, 1051429704), (3516065817, 3036209946), (3600352804, 1746355465), (4094571909, 1505428940), (275423344, 2570546003)] ++ ([(430227734, 611859422), (506948616, 704444855), (659060556, 55932420), (883997877, 3415477257), (958139571, 748211335), (1322822218, 274460794), (1537002063, 1663170573), (1747873779, 2772979719)] ++ [(1955562222, 1233031072), (2024104815, 2458778790), (2227730452, 3283270080), (2361852424, 3361198290), (2428436474, 2681078979), (2756734187, 812738247), (3204031479, 815926115), (3329325298, 949869428)]))))))) := by decide

theorem shaB_r1 : applyRounds initH [(1116352408, 1652326400), (1899447441, 0), (3049323471, 0), (3921009573, 0), (961987163, 0), (1508970993, 0), (2453635748, 0), (2870763221, 0)] = [2486106835, 1671877653, 89466592, 1863959435, 1789440590, 2585142352, 2448027666, 3614407536] := by decide

theorem shaB_r2 : applyRounds [2486106835, 1671877653, 89466592, 1863959435, 1789440590, 2585142352, 2448027666, 3614407536] [(3624381080, 0), (310598401, 0), (607225278, 0), (1426881987, 0), (1925078388, 0), (2162078206, 0), (2614888103, 0), (3248222580, 16)] = [4194845148, 2394166767, 1144063576, 2468736756, 3013509294, 549269316, 321571319, 423011409] := by decide

theorem shaB_r3 : applyRounds [4194845148, 2394166767, 1144063576, 2468736756, 3013509294, 549269316, 321571319, 423011409] [(3835390401, 1652326400), (4022224774, 655360), (264347078, 3491275345), (604807628, 1073742468), (770255983, 1163318311), (1249150122, 16951296), (1555081692, 2961579972), (1996064986, 1669120011)] = [4261516609, 1949331923, 61081610, 1859581950, 1956858169, 1424159729, 2950887936, 477080524] := by decide

theorem shaB_r4 : applyRounds [4261516609, 1949331923, 61081610, 1859581950, 1956858169, 1424159729, 2950887936, 477080524] [(2554220882, 3426807764), (2821834349, 3358893362), (2952996808, 2854482455), (3210313671, 191104092), (3336571891, 2288406697), (3584528711, 858619299), (113926993, 1709485240), (338241895, 171284015)] = [3527121541, 3375603388, 2662983740, 3990479182, 3440053820, 2507110033, 2617410446, 1356421630] := by decide

theorem shaB_r5 : applyRounds [3527121541, 3375603388, 2662983740, 3990479182, 3440053820, 2507110033, 2617410446, 1356421630] [(666307205, 1854193817), (773529912, 3040226392), (1294757372, 3554800292), (1396182291, 2400844636), (1695183700, 3923291594), (1986661051, 1112426671), (2177026350, 684576589), (2456956037, 1262095061)] = [4104401690, 1785784853, 2049964397, 2349545667, 3429027934, 560052148, 623287754, 46500384] := by decide

theorem shaB_r6 : applyRounds [4104401690, 1785784853, 2049964397, 2349545667, 3429027934, 560052148, 623287754, 46500384] [(2730485921, 899051033), (2820302411, 2798595452), (3259730800, 3966636463), (3345764771, 1051429704), (3516065817, 3036209946), (3600352804, 1746355465), (4094571909, 1505428940), (275423344, 2570546003)] = [3427801781, 4176576214, 2437537190, 1227805443, 2051088922, 2584940289, 3488341422, 138282743] := by decide

theorem shaB_r7 : applyRounds [3427801781, 4176576214, 2437537190, 1227805443, 2051088922, 2584940289, 3488341422, 138282743] [(430227734, 611859422), (506948616, 704444855), (659060556, 55932420), (883997877, 3415477257), (958139571, 748211335), (1322822218, 274460794), (1537002063, 1663170573), (1747873779, 2772979719)] = [2220378593, 2610429366, 1963681196, 2526341914, 3231825532, 73794697, 1712913062, 2347657422] := by decide

theorem shaB_r8 : applyRounds [2220378593, 2610429366, 1963681196, 2526341914, 3231825532, 73794697, 1712913062, 2347657422] [(1955562222, 1233031072), (2024104815, 2458778790), (2227730452, 3283270080), (2361852424, 3361198290), (2428436474, 2681078979), (2756734187, 812738247), (3204031479, 815926115), (3329325298, 949869428)] = [2498457405, 1277184589, 4229804146, 3618454717, 3559287402, 3576735615, 2130408106, 3817948490] := by decide

theorem shaB_rounds : applyRounds initH [(1116352408, 1652326400), (1899447441, 0), (3049323471, 0), (3921009573, 0), (961987163, 0), (1508970993, 0), (2453635748, 0), (2870763221, 0), (3624381080, 0), (310598401, 0), (607225278, 0), (1426881987, 0), (1925078388, 0), (2162078206, 0), (2614888103, 0), (3248222580, 16), (3835390401, 1652326400), (4022224774, 655360), (264347078, 3491275345), (604807628, 1073742468), (770255983, 1163318311), (1249150122, 16951296), (1555081692, 2961579972), (1996064986, 1669120011), (2554220882, 3426807764), (2821834349, 3358893362), (2952996808, 2854482455), (3210313671, 191104092), (3336571891, 2288406697), (3584528711, 858619299), (113926993, 1709485240), (338241895, 171284015), (666307205, 1854193817), (773529912, 3040226392), (1294757372, 3554800292), (1396182291, 2400844636), (1695183700, 3923291594), (1986661051, 1112426671), (2177026350, 684576589), (2456956037, 1262095061), (2730485921, 899051033), (2820302411, 2798595452), (3259730800, 3966636463), (3345764771, 1051429704), (3516065817, 3036209946), (3600352804, 1746355465), (4094571909, 1505428940), (275423344, 2570546003), (430227734, 611859422), (506948616, 704444855), (659060556, 55932420), (883997877, 3415477257), (958139571, 748211335), (1322822218, 274460794), (1537002063, 1663170573), (1747873779, 2772979719), (1955562222, 1233031072), (2024104815, 2458778790), (2227730452, 3283270080), (2361852424, 3361198290), (2428436474, 2681078979), (2756734187, 812738247), (3204031479, 815926115), (3329325298, 949869428)] = [2498457405, 1277184589, 4229804146, 3618454717, 3559287402, 3576735615, 2130408106, 3817948490] := by
  rw [shaB_zsplit]
  rw [applyRounds_append, shaB_r1, applyRounds_append, shaB_r2, applyRounds_append, shaB_r3, applyRounds_append, shaB_r4, applyRounds_append, shaB_r5, applyRounds_append, shaB_r6, applyRounds_append, shaB_r7, shaB_r8]

theorem shaB_cb : compressBlock initH [98, 124, 128, 0, 0, 0, 0, 0, 0, 0, 0, 0, 0, 0, 0, 0, 0, 0, 0, 0, 0, 0, 0, 0, 0, 0, 0, 0, 0, 0, 0, 0, 0, 0, 0, 0, 0, 0, 0, 0, 0, 0, 0, 0, 0, 0, 0, 0, 0, 0, 0, 0, 0, 0, 0, 0, 0, 0, 0, 0, 0, 0, 0, 16] = [4277491108, 126351570, 948741092, 2096968183, 624213225, 1882591243, 2659142741, 1064440419] := by
  unfold compressBlock
  simp only [shaB_ext, shaB_zip, shaB_rounds]
  decide

theorem shaB_chunks : chunks64 76 (padMessage [98, 124]) = [[98, 124, 128, 0, 0, 0, 0, 0, 0, 0, 0, 0, 0, 0, 0, 0, 0, 0, 0, 0, 0, 0, 0, 0, 0, 0, 0, 0, 0, 0, 0, 0, 0, 0, 0, 0, 0, 0, 0, 0, 0, 0, 0, 0, 0, 0, 0, 0, 0, 0, 0, 0, 0, 0, 0, 0, 0, 0, 0, 0, 0, 0, 0, 16]] := by
  rw [shaB_pad]
  decide

theorem shaB_words : sha256Words [98, 124] = [4277491108, 126351570, 948741092, 2096968183, 624213225, 1882591243, 2659142741, 1064440419] := by
  unfold sha256Words
  rw [show ([98, 124] : List Nat).length + 74 = 76 from rfl]
  rw [shaB_chunks]
  simp only [List.foldl_cons, List.foldl_nil]
  exact shaB_cb

theorem keyB_hex : cache_key "b" "" = "fef555a40787f8d2388ca3e47cfd31f72534bce97036100b9e7f4c553f721263" := by
  unfold cache_key
  rw [show msgBytes "b" "" = [98, 124] from by decide]
  unfold sha256Hex
  rw [shaB_words]
  decide

theorem shaC_pad : padMessage [99, 124] = [99, 124, 128, 0, 0, 0, 0, 0, 0, 0, 0, 0, 0, 0, 0, 0, 0, 0, 0, 0, 0, 0, 0, 0, 0, 0, 0, 0, 0, 0, 0, 0, 0, 0, 0, 0, 0, 0, 0, 0, 0, 0, 0, 0, 0, 0, 0, 0, 0, 0, 0, 0, 0, 0, 0, 0, 0, 0, 0, 0, 0, 0, 0, 16] := by decide

theorem shaC_w16 : toWords [99, 124, 128, 0, 0, 0, 0, 0, 0, 0, 0, 0, 0, 0, 0, 0, 0, 0, 0, 0, 0, 0, 0, 0, 0, 0, 0, 0, 0, 0, 0, 0, 0, 0, 0, 0, 0, 0, 0, 0, 0, 0, 0, 0, 0, 0, 0, 0, 0, 0, 0, 0, 0, 0, 0, 0, 0, 0, 0, 0, 0, 0, 0, 16] = [1669103616, 0, 0, 0, 0, 0, 0, 0, 0, 0, 0, 0, 0, 0, 0, 16] := by decide

theorem shaC_e1 : extendWords 12 [1669103616, 0, 0, 0, 0, 0, 0, 0, 0, 0, 0, 0, 0, 0, 0, 16] = [1669103616, 0, 0, 0, 0, 0, 0, 0, 0, 0, 0, 0, 0, 0, 0, 16, 1669103616, 655360, 3491291889, 1073742468, 1829950519, 16951296, 814096302, 1685897227, 3426287572, 3359024242, 2686710824, 4086826219] := by decide

theorem shaC_e2 : extendWords 12 [1669103616, 0, 0, 0, 0, 0, 0, 0, 0, 0, 0, 0, 0, 0, 0, 16, 1669103616, 655360, 3491291889, 1073742468, 1829950519, 16951296, 814096302, 1685897227, 3426287572, 3359024242, 2686710824, 4086826219] = [1669103616, 0, 0, 0, 0, 0, 0, 0, 0, 0, 0, 0, 0, 0, 0, 16, 1669103616, 655360, 3491291889, 1073742468, 1829950519, 16951296, 814096302, 1685897227, 3426287572, 3359024242, 2686710824, 4086826219, 2243687656, 861569388, 155778212, 158972713, 226054182, 1279347138, 1172738424, 704388048, 3843160478, 1987991382, 671841737, 3812415393] := by decide

theorem shaC_e3 : extendWords 12 [1669103616, 0, 0, 0, 0, 0, 0, 0, 0, 0, 0, 0, 0, 0, 0, 16, 1669103616, 655360, 3491291889, 1073742468, 1829950519, 16951296, 814096302, 1685897227, 3426287572, 3359024242, 2686710824, 4086826219, 2243687656, 861569388, 155778212, 158972713, 226054182, 1279347138, 1172738424, 704388048, 3843160478, 1987991382, 671841737, 3812415393] = [1669103616, 0, 0, 0, 0, 0, 0, 0, 0, 0, 0, 0, 0, 0, 0, 16, 1669103616, 655360, 3491291889, 1073742468, 1829950519, 16951296, 814096302, 1685897227, 3426287572, 3359024242, 2686710824, 4086826219, 2243687656, 861569388, 155778212, 158972713, 226054182, 1279347138, 1172738424, 704388048, 3843160478, 1987991382, 671841737, 3812415393, 1062996284, 3079096859, 411380657, 1637053316, 2872689743, 2837668763, 84035868, 1076300236, 302880175, 654255548, 3279511120, 2862984716] := by decide

theorem shaC_e4 : extendWords 12 [1669103616, 0, 0, 0, 0, 0, 0, 0, 0, 0, 0, 0, 0, 0, 0, 16, 1669103616, 655360, 3491291889, 1073742468, 1829950519, 16951296, 814096302, 1685897227, 3426287572, 3359024242, 2686710824, 4086826219, 2243687656, 861569388, 155778212, 158972713, 226054182, 1279347138, 1172738424, 704388048, 3843160478, 1987991382, 671841737, 3812415393, 1062996284, 3079096859, 411380657, 1637053316, 2872689743, 2837668763, 84035868, 1076300236, 302880175, 654255548, 3279511120, 2862984716] = [1669103616, 0, 0, 0, 0, 0, 0, 0, 0, 0, 0, 0, 0, 0, 0, 16, 1669103616, 655360, 3491291889, 1073742468, 1829950519, 16951296, 814096302, 1685897227, 3426287572, 3359024242, 2686710824, 4086826219, 2243687656, 861569388, 155778212, 158972713, 226054182, 1279347138, 1172738424, 704388048, 3843160478, 1987991382, 671841737, 3812415393, 1062996284, 3079096859, 411380657, 1637053316, 2872689743, 2837668763, 84035868, 1076300236, 302880175, 654255548, 3279511120, 2862984716, 1258205336, 647052575, 1623832245, 743077895, 1191733054, 433517213, 3668202540, 1322262616, 1828790653, 3373203963, 953080750, 556711053] := by decide

theorem shaC_ext : extendWords 48 (toWords [99, 124, 128, 0, 0, 0, 0, 0, 0, 0, 0, 0, 0, 0, 0, 0, 0, 0, 0, 0, 0, 0, 0, 0, 0, 0, 0, 0, 0, 0, 0, 0, 0, 0, 0, 0, 0, 0, 0, 0, 0, 0, 0, 0, 0, 0, 0, 0, 0, 0, 0, 0, 0, 0, 0, 0, 0, 0, 0, 0, 0, 0, 0, 16]) = [1669103616, 0, 0, 0, 0, 0, 0, 0, 0, 0, 0, 0, 0, 0, 0, 16, 1669103616, 655360, 3491291889, 1073742468, 1829950519, 16951296, 814096302, 1685897227, 3426287572, 3359024242, 2686710824, 4086826219, 2243687656, 861569388, 155778212, 158972713, 226054182, 1279347138, 1172738424, 704388048, 3843160478, 1987991382, 671841737, 3812415393, 1062996284, 3079096859, 411380657, 1637053316, 2872689743, 2837668763, 84035868, 1076300236, 302880175, 654255548, 3279511120, 2862984716, 1258205336, 647052575, 1623832245, 743077895, 1191733054, 433517213, 3668202540, 1322262616, 1828790653, 3373203963, 953080750, 556711053] := by
  rw [shaC_w16]
  rw [show (48 : Nat) = 12 + 12 + 12 + 12 from rfl]
  rw [extendWords_add, extendWords_add, extendWords_add]
  rw [shaC_e1, shaC_e2, shaC_e3, shaC_e4]

theorem shaC_zip : roundK.zip [1669103616, 0, 0, 0, 0, 0, 0, 0, 0, 0, 0, 0, 0, 0, 0, 16, 1669103616, 655360, 3491291889, 1073742468, 1829950519, 16951296, 814096302, 1685897227, 3426287572, 3359024242, 2686710824, 4086826219, 2243687656, 861569388, 155778212, 158972713, 226054182, 1279347138, 1172738424, 704388048, 3843160478, 1987991382, 671841737, 3812415393, 1062996284, 3079096859, 411380657, 1637053316, 2872689743, 2837668763, 84035868, 1076300236, 302880175, 654255548, 3279511120, 2862984716, 1258205336, 647052575, 1623832245, 743077895, 1191733054, 433517213, 3668202540, 1322262616, 1828790653, 3373203963, 953080750, 556711053] = [(1116352408, 1669103616), (1899447441, 0), (3049323471, 0), (3921009573, 0), (961987163, 0), (1508970993, 0), (2453635748, 0), (2870763221, 0), (3624381080, 0), (310598401, 0), (607225278, 0), (1426881987, 0), (1925078388, 0), (2162078206, 0), (2614888103, 0), (3248222580, 16), (3835390401, 1669103616), (4022224774, 655360), (264347078, 3491291889), (604807628, 1073742468), (770255983, 1829950519), (1249150122, 16951296), (1555081692, 814096302), (1996064986, 1685897227), (2554220882, 3426287572), (2821834349, 3359024242), (2952996808, 2686710824), (3210313671, 4086826219), (3336571891, 2243687656), (3584528711, 861569388), (113926993, 155778212), (338241895, 158972713), (666307205, 226054182), (773529912, 1279347138), (1294757372, 1172738424), (1396182291, 704388048), (1695183700, 3843160478), (1986661051, 1987991382), (2177026350, 671841737), (2456956037, 3812415393), (2730485921, 1062996284), (2820302411, 3079096859), (3259730800, 411380657), (3345764771, 1637053316), (3516065817, 2872689743), (3600352804, 2837668763), (4094571909, 84035868), (275423344, 1076300236), (430227734, 302880175), (506948616, 654255548), (659060556, 3279511120), (883997877, 2862984716), (958139571, 1258205336), (1322822218, 647052575), (1537002063, 1623832245), (1747873779, 743077895), (1955562222, 1191733054), (2024104815, 433517213), (2227730452, 3668202540), (2361852424, 1322262616), (2428436474, 1828790653), (2756734187, 3373203963), (3204031479, 953080750), (3329325298, 556711053)] := by decide

theorem shaC_zsplit : ([(1116352408, 1669103616), (1899447441, 0), (3049323471, 0), (3921009573, 0), (961987163, 0), (1508970993, 0), (2453635748, 0), (2870763221, 0), (3624381080, 0), (310598401, 0), (607225278, 0), (1426881987, 0), (1925078388, 0), (2162078206, 0), (2614888103, 0), (3248222580, 16), (3835390401, 1669103616), (4022224774, 655360), (264347078, 3491291889), (604807628, 1073742468), (770255983, 1829950519), (1249150122, 16951296), (1555081692, 814096302), (1996064986, 1685897227), (2554220882, 3426287572), (2821834349, 3359024242), (2952996808, 2686710824), (3210313671, 4086826219), (3336571891, 2243687656), (3584528711, 861569388), (113926993, 155778212), (338241895, 158972713), (666307205, 226054182), (773529912, 1279347138), (1294757372, 1172738424), (1396182291, 704388048), (1695183700, 3843160478), (1986661051, 1987991382), (2177026350, 671841737), (2456956037, 3812415393), (2730485921, 1062996284), (2820302411, 3079096859), (3259730800, 411380657), (3345764771, 1637053316), (3516065817, 2872689743), (3600352804, 2837668763), (4094571909, 84035868), (275423344, 1076300236), (430227734, 302880175), (506948616, 654255548), (659060556, 3279511120), (883997877, 2862984716), (958139571, 1258205336), (1322822218, 647052575), (1537002063, 1623832245), (1747873779, 743077895), (1955562222, 1191733054), (2024104815, 433517213), (2227730452, 3668202540), (2361852424, 1322262616), (2428436474, 1828790653), (2756734187, 3373203963), (3204031479, 953080750), (3329325298, 556711053)] : List (Nat × Nat)) = ([(1116352408, 1669103616), (1899447441, 0), (3049323471, 0), (3921009573, 0), (961987163, 0), (1508970993, 0), (2453635748, 0), (2870763221, 0)] ++ ([(3624381080, 0), (310598401, 0), (607225278, 0), (1426881987, 0), (1925078388, 0), (2162078206, 0), (2614888103, 0), (3248222580, 16)] ++ ([(3835390401, 1669103616), (4022224774, 655360), (264347078, 3491291889), (604807628, 1073742468), (770255983, 1829950519), (1249150122, 16951296), (1555081692, 814096302), (1996064986, 1685897227)] ++ ([(2554220882, 3426287572), (2821834349, 3359024242), (2952996808, 2686710824), (3210313671, 4086826219), (3336571891, 2243687656), (3584528711, 861569388), (113926993, 155778212), (338241895, 158972713)] ++ ([(666307205, 226054182), (773529912, 1279347138), (1294757372, 1172738424), (1396182291, 704388048), (1695183700, 3843160478), (1986661051, 1987991382), (2177026350, 671841737), (2456956037, 3812415393)] ++ ([(2730485921, 1062996284), (2820302411, 3079096859), (3259730800, 411380657), (3345764771, 1637053316), (3516065817, 2872689743), (3600352804, 2837668763), (4094571909, 84035868), (275423344, 1076300236)] ++ ([(430227734, 302880175), (506948616, 654255548), (659060556, 3279511120), (883997877, 2862984716), (958139571, 1258205336), (1322822218, 647052575), (1537002063, 1623832245), (1747873779, 743077895)] ++ [(1955562222, 1191733054), (2024104815, 433517213), (2227730452, 3668202540), (2361852424, 1322262616), (2428436474, 1828790653), (2756734187, 3373203963), (3204031479, 953080750), (3329325298, 556711053)]))))))) := by decide

theorem shaC_r1 : applyRounds initH [(1116352408, 1669103616), (1899447441, 0), (3049323471, 0), (3921009573, 0), (961987163, 0), (1508970993, 0), (2453635748, 0), (2870763221, 0)] = [1309722405, 1168740554, 3432074434, 625802394, 2049231619, 3729871742, 2800283584, 3497963929] := by decide

theorem shaC_r2 : applyRounds [1309722405, 1168740554, 3432074434, 625802394, 2049231619, 3729871742, 2800283584, 3497963929] [(3624381080, 0), (310598401, 0), (607225278, 0), (1426881987, 0), (1925078388, 0), (2162078206, 0), (2614888103, 0), (3248222580, 16)] = [3063298824, 680621422, 1865376655, 1549107884, 1709657256, 3491943800, 2806992484, 2029208439] := by decide

theorem shaC_r3 : applyRounds [3063298824, 680621422, 1865376655, 1549107884, 1709657256, 3491943800, 2806992484, 2029208439] [(3835390401, 1669103616), (4022224774, 655360), (264347078, 3491291889), (604807628, 1073742468), (770255983, 1829950519), (1249150122, 16951296), (1555081692, 814096302), (1996064986, 1685897227)] = [1981213202, 513763905, 1788443654, 3906673907, 92581458, 1107441936, 1125145456, 2069343325] := by decide

theorem shaC_r4 : applyRounds [1981213202, 513763905, 1788443654, 3906673907, 92581458, 1107441936, 1125145456, 2069343325] [(2554220882, 3426287572), (2821834349, 3359024242), (2952996808, 2686710824), (3210313671, 4086826219), (3336571891, 2243687656), (3584528711, 861569388), (113926993, 155778212), (338241895, 158972713)] = [2478019205, 2836320543, 2380586586, 1315539191, 360636306, 3108840253, 205218489, 3427584508] := by decide

theorem shaC_r5 : applyRounds [2478019205, 2836320543, 2380586586, 1315539191, 360636306, 3108840253, 205218489, 3427584508] [(666307205, 226054182), (773529912, 1279347138), (1294757372, 1172738424), (1396182291, 704388048), (1695183700, 3843160478), (1986661051, 1987991382), (2177026350, 671841737), (2456956037, 3812415393)] = [421467820, 2009660645, 1815719509, 157953575, 143687438, 3357190370, 3177434153, 2171408571] := by decide

theorem shaC_r6 : applyRounds [421467820, 2009660645, 1815719509, 157953575, 143687438, 3357190370, 3177434153, 2171408571] [(2730485921, 1062996284), (2820302411, 3079096859), (3259730800, 411380657), (3345764771, 1637053316), (3516065817, 2872689743), (3600352804, 2837668763), (4094571909, 84035868), (275423344, 1076300236)] = [2749776860, 893806839, 1048603886, 502608576, 2155443923, 1368225785, 1840402466, 3104585570] := by decide

theorem shaC_r7 : applyRounds [2749776860, 893806839, 1048603886, 502608576, 2155443923, 1368225785, 1840402466, 3104585570] [(430227734, 302880175), (506948616, 654255548), (659060556, 3279511120), (883997877, 2862984716), (958139571, 1258205336), (1322822218, 647052575), (1537002063, 1623832245), (1747873779, 743077895)] = [2891059883, 382241244, 3938853336, 369555814, 871759970, 989260987, 2607855635, 1077927744] := by decide

theorem shaC_r8 : applyRounds [2891059883, 382241244, 3938853336, 369555814, 871759970, 989260987, 2607855635, 1077927744] [(1955562222, 1191733054), (2024104815, 433517213), (2227730452, 3668202540), (2361852424, 1322262616), (2428436474, 1828790653), (2756734187, 3373203963), (3204031479, 953080750), (3329325298, 556711053)] = [758870578, 1201924294, 3855189746, 3512982258, 2006520354, 303186308, 361662420, 1055717245] := by decide

theorem shaC_rounds : applyRounds initH [(1116352408, 1669103616), (1899447441, 0), (3049323471, 0), (3921009573, 0), (961987163, 0), (1508970993, 0), (2453635748, 0), (2870763221, 0), (3624381080, 0), (310598401, 0), (607225278, 0), (1426881987, 0), (1925078388, 0), (2162078206, 0), (2614888103, 0), (3248222580, 16), (3835390401, 1669103616), (4022224774, 655360), (264347078, 3491291889), (604807628, 1073742468), (770255983, 1829950519), (1249150122, 16951296), (1555081692, 814096302), (1996064986, 1685897227), (2554220882, 3426287572), (2821834349, 3359024242), (2952996808, 2686710824), (3210313671, 4086826219), (3336571891, 2243687656), (3584528711, 861569388), (113926993, 155778212), (338241895, 158972713), (666307205, 226054182), (773529912, 1279347138), (1294757372, 1172738424), (1396182291, 704388048), (1695183700, 3843160478), (1986661051, 1987991382), (2177026350, 671841737), (2456956037, 3812415393), (2730485921, 1062996284), (2820302411, 3079096859), (3259730800, 411380657), (3345764771, 1637053316), (3516065817, 2872689743), (3600352804, 2837668763), (4094571909, 84035868), (275423344, 1076300236), (430227734, 302880175), (506948616, 654255548), (659060556, 3279511120), (883997877, 2862984716), (958139571, 1258205336), (1322822218, 647052575), (1537002063, 1623832245), (1747873779, 743077895), (1955562222, 1191733054), (2024104815, 433517213), (2227730452, 3668202540), (2361852424, 1322262616), (2428436474, 1828790653), (2756734187, 3373203963), (3204031479, 953080750), (3329325298, 556711053)] = [758870578, 1201924294, 3855189746, 3512982258, 2006520354, 303186308, 361662420, 1055717245] := by
  rw [shaC_zsplit]
  rw [applyRounds_append, shaC_r1, applyRounds_append, shaC_r2, applyRounds_append, shaC_r3, applyRounds_append, shaC_r4, applyRounds_append, shaC_r5, applyRounds_append, shaC_r6, applyRounds_append, shaC_r7, shaC_r8]

theorem shaC_cb : compressBlock initH [99, 124, 128, 0, 0, 0, 0, 0, 0, 0, 0, 0, 0, 0, 0, 0, 0, 0, 0, 0, 0, 0, 0, 0, 0, 0, 0, 0, 0, 0, 0, 0, 0, 0, 0, 0, 0, 0, 0, 0, 0, 0, 0, 0, 0, 0, 0, 0, 0, 0, 0, 0, 0, 0, 0, 0, 0, 0, 0, 0, 0, 0, 0, 16] = [2537904281, 51091275, 574126692, 1991495724, 3366413473, 2904009232, 890397055, 2597176470] := by
  unfold compressBlock
  simp only [shaC_ext, shaC_zip, shaC_rounds]
  decide

theorem shaC_chunks : chunks64 76 (padMessage [99, 124]) = [[99, 124, 128, 0, 0, 0, 0, 0, 0, 0, 0, 0, 0, 0, 0, 0, 0, 0, 0, 0, 0, 0, 0, 0, 0, 0, 0, 0, 0, 0, 0, 0, 0, 0, 0, 0, 0, 0, 0, 0, 0, 0, 0, 0, 0, 0, 0, 0, 0, 0, 0, 0, 0, 0, 0, 0, 0, 0, 0, 0, 0, 0, 0, 16]] := by
  rw [shaC_pad]
  decide

theorem shaC_words : sha256Words [99, 124] = [2537904281, 51091275, 574126692, 1991495724, 3366413473, 2904009232, 890397055, 2597176470] := by
  unfold sha256Words
  rw [show ([99, 124] : List Nat).length + 74 = 76 from rfl]
  rw [shaC_chunks]
  simp only [List.foldl_cons, List.foldl_nil]
  exact shaC_cb

theorem keyC_hex : cache_key "c" "" = "97455899030b974b22387a6476b3d02cc8a764a1ad17aa103512617f9acdc496" := by
  unfold cache_key
  rw [show msgBytes "c" "" = [99, 124] from by decide]
  unfold sha256Hex
  rw [shaC_words]
  decide

theorem keyAB_ne : cache_key "a" "" ≠ cache_key "b" "" := by
  rw [keyA_hex, keyB_hex]; decide

theorem keyAC_ne : cache_key "a" "" ≠ cache_key "c" "" := by
  rw [keyA_hex, keyC_hex]; decide

theorem keyBC_ne : cache_key "b" "" ≠ cache_key "c" "" := by
  rw [keyB_hex, keyC_hex]; decide

/-! ### Association-list lemmas for the cache map -/

theorem assocGet_nil (k : String) : assocGet [] k = none := rfl

theorem assocGet_cons (e : String × CacheEntry) (m : List (String × CacheEntry))
    (k : String) :
    assocGet (e :: m) k = if e.1 = k then some e.2 else assocGet m k := by
  unfold assocGet
  rw [List.find?_cons]
  by_cases h : e.1 = k
  · rw [if_pos h]
    have : (decide (e.1 = k)) = true := decide_eq_true h
    rw [this]
    rfl
  · rw [if_neg h]
    have : (decide (e.1 = k)) = false := decide_eq_false h
    rw [this]

theorem assocGet_insert_self (m : List (String × CacheEntry)) (k : String)
    (v : CacheEntry) : assocGet (assocInsert m k v) k = some v := by
  induction m with
  | nil =>
    rw [assocInsert, assocGet_cons, if_pos rfl]
  | cons e rest ih =>
    rw [assocInsert]
    by_cases h : e.1 = k
    · rw [if_pos h, assocGet_cons, if_pos rfl]
    · rw [if_neg h, assocGet_cons, if_neg h]
      exact ih

theorem assocGet_insert_ne (m : List (String × CacheEntry)) (k kq : String)
    (v : CacheEntry) (h : kq ≠ k) :
    assocGet (assocInsert m k v) kq = assocGet m kq := by
  induction m with
  | nil =>
    rw [assocInsert, assocGet_cons, if_neg (fun hh => h hh.symm), assocGet_nil]
  | cons e rest ih =>
    rw [assocInsert]
    by_cases he : e.1 = k
    · rw [if_pos he, assocGet_cons, assocGet_cons, if_neg (fun hh => h hh.symm),
        if_neg (by rw [he]; exact fun hh => h hh.symm)]
    · rw [if_neg he, assocGet_cons, assocGet_cons]
      by_cases hq : e.1 = kq
      · rw [if_pos hq, if_pos hq]
      · rw [if_neg hq, if_neg hq]
        exact ih

theorem assocGet_remove_ne (m : List (String × CacheEntry)) (k kq : String)
    (h : kq ≠ k) : assocGet (assocRemove m k) kq = assocGet m kq := by
  induction m with
  | nil => rfl
  | cons e rest ih =>
    rw [assocRemove]
    by_cases he : e.1 = k
    · rw [if_pos he, assocGet_cons, if_neg (by rw [he]; exact fun hh => h hh.symm)]
    · rw [if_neg he, assocGet_cons, assocGet_cons]
      by_cases hq : e.1 = kq
      · rw [if_pos hq, if_pos hq]
      · rw [if_neg hq, if_neg hq]
        exact ih

theorem mem_keys_of_assocGet_some {m : List (String × CacheEntry)} {k : String}
    {v : CacheEntry} (h : assocGet m k = some v) : k ∈ m.map Prod.fst := by
  induction m with
  | nil => cases h
  | cons e rest ih =>
    rw [assocGet_cons] at h
    by_cases he : e.1 = k
    · rw [List.map_cons]
      exact he ▸ List.mem_cons_self e.1 _
    · rw [if_neg he] at h
      exact List.mem_cons_of_mem _ (ih h)

theorem assocGet_remove_self (m : List (String × CacheEntry)) (k : String)
    (hnd : (m.map Prod.fst).Nodup) : assocGet (assocRemove m k) k = none := by
  induction m with
  | nil => rfl
  | cons e rest ih =>
    rw [List.map_cons, List.nodup_cons] at hnd
    rw [assocRemove]
    by_cases he : e.1 = k
    · rw [if_pos he]
      cases hg : assocGet rest k with
      | none => rfl
      | some v =>
        exact absurd (he ▸ mem_keys_of_assocGet_some hg) hnd.1
    · rw [if_neg he, assocGet_cons, if_neg he]
      exact ih hnd.2

theorem mem_keys_assocInsert {m : List (String × CacheEntry)} {k x : String}
    {v : CacheEntry} :
    x ∈ (assocInsert m k v).map Prod.fst ↔ x ∈ m.map Prod.fst ∨ x = k := by
  induction m with
  | nil =>
    simp [assocInsert, eq_comm]
  | cons e rest ih =>
    rw [assocInsert]
    by_cases he : e.1 = k
    · rw [if_pos he, List.map_cons, List.map_cons]
      constructor
      · rintro h
        rcases List.mem_cons.mp h with rfl | h
        · exact Or.inr rfl
        · exact Or.inl (List.mem_cons_of_mem _ h)
      · rintro (h | rfl)
        · rcases List.mem_cons.mp h with h | h
          · rw [h, he]; exact List.mem_cons_self _ _
          · exact List.mem_cons_of_mem _ h
        · exact List.mem_cons_self _ _
    · rw [if_neg he, List.map_cons, List.map_cons]
      constructor
      · intro h
        rcases List.mem_cons.mp h with rfl | h
        · exact Or.inl (List.mem_cons_self _ _)
        · rcases ih.mp h with h | h
          · exact Or.inl (List.mem_cons_of_mem _ h)
          · exact Or.inr h
      · rintro (h | rfl)
        · rcases List.mem_cons.mp h with rfl | h
          · exact List.mem_cons_self _ _
          · exact List.mem_cons_of_mem _ (ih.mpr (Or.inl h))
        · exact List.mem_cons_of_mem _ (ih.mpr (Or.inr rfl))

theorem nodup_keys_assocInsert {m : List (String × CacheEntry)} (k : String)
    (v : CacheEntry) (hnd : (m.map Prod.fst).Nodup) :
    ((assocInsert m k v).map Prod.fst).Nodup := by
  induction m with
  | nil => simp [assocInsert]
  | cons e rest ih =>
    rw [List.map_cons, List.nodup_cons] at hnd
    rw [assocInsert]
    by_cases he : e.1 = k
    · rw [if_pos he, List.map_cons, List.nodup_cons]
      exact ⟨he ▸ hnd.1, hnd.2⟩
    · rw [if_neg he, List.map_cons, List.nodup_cons]
      refine ⟨?_, ih hnd.2⟩
      intro hmem
      rcases mem_keys_assocInsert.mp hmem with h | h
      · exact hnd.1 h
      · exact he h

theorem keys_assocRemove_sublist (m : List (String × CacheEntry)) (k : String) :
    ((assocRemove m k).map Prod.fst).Sublist (m.map Prod.fst) := by
  induction m with
  | nil => exact List.Sublist.refl _
  | cons e rest ih =>
    rw [assocRemove]
    by_cases he : e.1 = k
    · rw [if_pos he, List.map_cons]
      exact List.sublist_cons_self _ _
    · rw [if_neg he, List.map_cons, List.map_cons]
      exact List.Sublist.cons₂ _ ih

theorem nodup_keys_assocRemove {m : List (String × CacheEntry)} (k : String)
    (hnd : (m.map Prod.fst).Nodup) :
    ((assocRemove m k).map Prod.fst).Nodup :=
  (keys_assocRemove_sublist m k).nodup hnd

theorem length_assocRemove_le (m : List (String × CacheEntry)) (k : String) :
    (assocRemove m k).length ≤ m.length := by
  induction m with
  | nil => exact Nat.le_refl _
  | cons e rest ih =>
    rw [assocRemove]
    by_cases he : e.1 = k
    · rw [if_pos he, List.length_cons]
      omega
    · rw [if_neg he, List.length_cons, List.length_cons]
      omega

theorem length_assocRemove_of_mem {m : List (String × CacheEntry)} {k : String}
    (h : k ∈ m.map Prod.fst) : (assocRemove m k).length + 1 = m.length := by
  induction m with
  | nil => cases h
  | cons e rest ih =>
    rw [assocRemove]
    by_cases he : e.1 = k
    · rw [if_pos he, List.length_cons]
    · rw [if_neg he, List.length_cons, List.length_cons]
      rw [List.map_cons] at h
      rcases List.mem_cons.mp h with h | h
      · exact absurd h.symm he
      · rw [ih h]

theorem length_assocInsert_le (m : List (String × CacheEntry)) (k : String)
    (v : CacheEntry) : (assocInsert m k v).length ≤ m.length + 1 := by
  induction m with
  | nil => exact Nat.le_refl _
  | cons e rest ih =>
    rw [assocInsert]
    by_cases he : e.1 = k
    · rw [if_pos he, List.length_cons, List.length_cons]
      omega
    · rw [if_neg he, List.length_cons, List.length_cons]
      omega

theorem length_assocInsert_of_mem {m : List (String × CacheEntry)} {k : String}
    (v : CacheEntry) (h : k ∈ m.map Prod.fst) :
    (assocInsert m k v).length = m.length := by
  induction m with
  | nil => cases h
  | cons e rest ih =>
    rw [assocInsert]
    by_cases he : e.1 = k
    · rw [if_pos he, List.length_cons, List.length_cons]
    · rw [if_neg he, List.length_cons, List.length_cons]
      rw [List.map_cons] at h
      rcases List.mem_cons.mp h with h | h
      · exact absurd h.symm he
      · rw [ih h]

/-- The accumulator-based minimum search of `evict_oldest` stays inside
the list it scans. -/
theorem foldl_min_mem (rest : List (String × CacheEntry)) :
    ∀ e : String × CacheEntry,
      (rest.foldl (fun best x =>
        if x.2.timestamp < best.2.timestamp then x else best) e) ∈ e :: rest := by
  induction rest with
  | nil => intro e; exact List.mem_cons_self e []
  | cons x xs ih =>
    intro e
    rw [List.foldl_cons]
    by_cases hlt : x.2.timestamp < e.2.timestamp
    · rw [if_pos hlt]
      rcases List.mem_cons.mp (ih x) with h | h
      · rw [h]; exact List.mem_cons_of_mem _ (List.mem_cons_self _ _)
      · exact List.mem_cons_of_mem _ (List.mem_cons_of_mem _ h)
    · rw [if_neg hlt]
      rcases List.mem_cons.mp (ih e) with h | h
      · rw [h]; exact List.mem_cons_self _ _
      · exact List.mem_cons_of_mem _ (List.mem_cons_of_mem _ h)

/-- The minimum search finds a minimal timestamp. -/
theorem foldl_min_le (rest : List (String × CacheEntry)) :
    ∀ e : String × CacheEntry, ∀ y ∈ e :: rest,
      (rest.foldl (fun best x =>
        if x.2.timestamp < best.2.timestamp then x else best) e).2.timestamp ≤
        y.2.timestamp := by
  induction rest with
  | nil =>
    intro e y hy
    rcases List.mem_cons.mp hy with rfl | hy
    · exact Nat.le_refl _
    · cases hy
  | cons x xs ih =>
    intro e y hy
    rw [List.foldl_cons]
    have hacc : (if x.2.timestamp < e.2.timestamp then x else e).2.timestamp ≤
        e.2.timestamp ∧
        (if x.2.timestamp < e.2.timestamp then x else e).2.timestamp ≤
        x.2.timestamp := by
      by_cases hlt : x.2.timestamp < e.2.timestamp
      · rw [if_pos hlt]; omega
      · rw [if_neg hlt]; omega
    rcases List.mem_cons.mp hy with rfl | hy
    · exact le_trans (ih _ _ (List.mem_cons_self _ _)) hacc.1
    · rcases List.mem_cons.mp hy with rfl | hy
      · exact le_trans (ih _ _ (List.mem_cons_self _ _)) hacc.2
      · exact ih _ _ (List.mem_cons_of_mem _ hy)

/-! ### Cache behaviour lemmas -/

/-- Immediately after `set`, a `get` of the same pair hits and returns the
stored command, provided the TTL is at least one second. -/
theorem get_after_set_pos (c : ResponseCache) (p ctx cmd : String) (now : Nat)
    (h : 1 ≤ c.ttl) : ((c.set p ctx cmd now).get p ctx now).1 = some cmd := by
  have httl : (c.set p ctx cmd now).ttl = c.ttl := by
    unfold ResponseCache.set
    by_cases hcap : c.max_entries ≤ c.cache.length
    · rw [if_pos hcap]
      unfold ResponseCache.evict_oldest
      cases evictKey c.cache <;> rfl
    · rw [if_neg hcap]
  have hcache : (c.set p ctx cmd now).cache =
      assocInsert (if c.max_entries ≤ c.cache.length then c.evict_oldest else c).cache
        (cache_key p ctx) ⟨cmd, now, 0⟩ := rfl
  unfold ResponseCache.get
  simp only [hcache, assocGet_insert_self, Int.sub_self, httl]
  rw [if_pos]
  exact_mod_cast h

/-- With a zero TTL, the entry inserted by `set` is already expired for the
immediately following `get`. -/
theorem get_after_set_zero (c : ResponseCache) (p ctx cmd : String) (now : Nat)
    (h : c.ttl = 0) : ((c.set p ctx cmd now).get p ctx now).1 = none := by
  have httl : (c.set p ctx cmd now).ttl = c.ttl := by
    unfold ResponseCache.set
    by_cases hcap : c.max_entries ≤ c.cache.length
    · rw [if_pos hcap]
      unfold ResponseCache.evict_oldest
      cases evictKey c.cache <;> rfl
    · rw [if_neg hcap]
  have hcache : (c.set p ctx cmd now).cache =
      assocInsert (if c.max_entries ≤ c.cache.length then c.evict_oldest else c).cache
        (cache_key p ctx) ⟨cmd, now, 0⟩ := rfl
  unfold ResponseCache.get
  simp only [hcache, assocGet_insert_self, Int.sub_self, httl, h]
  rw [if_neg]
  norm_num

/-- C2 counterexample: on a cache constructed with `ttl_seconds = 0`, a
`get` immediately after `set` of the same pair returns nothing (the entry
is already expired), so the claim fails as stated. -/
theorem C2_counterexample :
    (((ResponseCache.new 0 100 none).set "a" "" "ls -la" 5).get "a" "" 5).1 = none :=
  get_after_set_zero _ "a" "" "ls -la" 5 rfl

/-- C2 (amended): for every cache whose TTL is at least one second and
every prompt, context and command, `get(p, c)` immediately after
`set(p, c, cmd)` on the same cache returns `Some(cmd)`. -/
theorem C2_get_after_set (c : ResponseCache) (p ctx cmd : String) (now : Nat)
    (h : 1 ≤ c.ttl) : ((c.set p ctx cmd now).get p ctx now).1 = some cmd :=
  get_after_set_pos c p ctx cmd now h

/-- Witness for C2 on a concretely configured cache. -/
theorem C2_get_after_set_witness :
    (((ResponseCache.new 3600 100 none).set "list files" "OS: macOS" "ls -la" 42).get
      "list files" "OS: macOS" 42).1 = some "ls -la" :=
  C2_get_after_set (ResponseCache.new 3600 100 none) "list files" "OS: macOS"
    "ls -la" 42 (by decide)

/-- C3: `get` behaves by cases: a hit within the TTL increments the
entry's hit count, returns the stored command and leaves other keys
untouched; a hit past the TTL removes the entry and returns nothing; a
miss returns nothing and leaves the cache unchanged.  The `Nodup`
hypothesis is the `HashMap` key-uniqueness invariant. -/
theorem C3_get_cases (c : ResponseCache) (p ctx : String) (now : Nat)
    (hnd : (c.cache.map Prod.fst).Nodup) :
    (∀ entry, assocGet c.cache (cache_key p ctx) = some entry →
      (((now : Int) - (entry.timestamp : Int) < (c.ttl : Int) →
         (c.get p ctx now).1 = some entry.command ∧
         assocGet (c.get p ctx now).2.cache (cache_key p ctx) =
           some { entry with hit_count := entry.hit_count + 1 } ∧
         (∀ k, k ≠ cache_key p ctx →
           assocGet (c.get p ctx now).2.cache k = assocGet c.cache k)) ∧
       ((c.ttl : Int) ≤ (now : Int) - (entry.timestamp : Int) →
         (c.get p ctx now).1 = none ∧
         assocGet (c.get p ctx now).2.cache (cache_key p ctx) = none ∧
         (∀ k, k ≠ cache_key p ctx →
           assocGet (c.get p ctx now).2.cache k = assocGet c.cache k)))) ∧
    (assocGet c.cache (cache_key p ctx) = none → c.get p ctx now = (none, c)) := by
  constructor
  · intro entry hentry
    constructor
    · intro hlt
      have hget : c.get p ctx now = (some entry.command, { c with cache := assocInsert c.cache (cache_key p ctx) ({ entry with hit_count := entry.hit_count + 1 }) }) := by
        unfold ResponseCache.get
        simp only [hentry]
        rw [if_pos hlt]
      rw [hget]
      exact ⟨rfl, assocGet_insert_self _ _ _,
        fun k hk => assocGet_insert_ne _ _ _ _ hk⟩
    · intro hge
      have hget : c.get p ctx now = (none, { c with cache := assocRemove c.cache (cache_key p ctx) }) := by
        unfold ResponseCache.get
        simp only [hentry]
        rw [if_neg (by omega)]
      rw [hget]
      exact ⟨rfl, assocGet_remove_self _ _ hnd,
        fun k hk => assocGet_remove_ne _ _ _ hk⟩
  · intro hnone
    unfold ResponseCache.get
    simp only [hnone]

/-- Witness for C3: a concrete cache exercising the fresh-hit and the
expired-hit branches. -/
theorem C3_get_cases_witness :
    (({ cache := [(cache_key "a" "", ⟨"date", 10, 0⟩)], ttl := 100,
        max_entries := 50 } : ResponseCache).get "a" "" 15).1 = some "date" ∧
    (({ cache := [(cache_key "a" "", ⟨"date", 10, 0⟩)], ttl := 100,
        max_entries := 50 } : ResponseCache).get "a" "" 200).1 = none := by
  have hvalid : assocGet [(cache_key "a" "", (⟨"date", 10, 0⟩ : CacheEntry))]
      (cache_key "a" "") = some ⟨"date", 10, 0⟩ := by
    rw [assocGet_cons, if_pos rfl]
  have hnd : (([(cache_key "a" "", (⟨"date", 10, 0⟩ : CacheEntry))]).map
      Prod.fst).Nodup := List.nodup_singleton _
  constructor
  · exact (((C3_get_cases ⟨[(cache_key "a" "", ⟨"date", 10, 0⟩)], 100, 50⟩ "a" "" 15 hnd).1 _ hvalid).1 (by norm_num)).1
  · exact (((C3_get_cases ⟨[(cache_key "a" "", ⟨"date", 10, 0⟩)], 100, 50⟩ "a" "" 200 hnd).1 _ hvalid).2 (by norm_num)).1

/-- A non-empty map has an eviction candidate, drawn from its entries. -/
theorem evictKey_of_ne_nil {m : List (String × CacheEntry)} (h : m ≠ []) :
    ∃ e ∈ m, evictKey m = some e.1 ∧ ∀ y ∈ m, e.2.timestamp ≤ y.2.timestamp := by
  cases m with
  | nil => exact absurd rfl h
  | cons e rest =>
    refine ⟨rest.foldl (fun (best x : String × CacheEntry) =>
      if x.2.timestamp < best.2.timestamp then x else best) e,
      foldl_min_mem rest e, rfl, foldl_min_le rest e⟩

/-- C5 counterexample: with `max_entries = 0`, a single `set` makes the
cache larger than its configured maximum, so the size invariant fails as
stated. -/
theorem C5_counterexample :
    ((ResponseCache.new 3600 0 none).set "a" "" "x" 0).max_entries <
      ((ResponseCache.new 3600 0 none).set "a" "" "x" 0).cache.length := by
  decide

/-- C5 (amended): one entry per key is preserved by every operation
(`new`, `load` of a well-formed snapshot, `get`, `set`, `clear`), and the
size never exceeds `max_entries` under `new`, `get`, `set` and `clear`
provided `max_entries ≥ 1`; a `load` may exceed the bound. -/
theorem C5_cache_invariants :
    (∀ ttl mx, (((ResponseCache.new ttl mx none).cache.map Prod.fst).Nodup) ∧
      (ResponseCache.new ttl mx none).cache.length ≤ mx) ∧
    (∀ (c : ResponseCache) disk, ((disk.map Prod.fst).Nodup) →
      (((c.load_from_disk (some disk)).cache.map Prod.fst).Nodup)) ∧
    (∀ (c : ResponseCache) p ctx now, (c.cache.map Prod.fst).Nodup →
      ((((c.get p ctx now).2.cache.map Prod.fst).Nodup) ∧
       (c.get p ctx now).2.cache.length ≤ c.cache.length ∧
       (c.get p ctx now).2.max_entries = c.max_entries)) ∧
    (∀ (c : ResponseCache) p ctx cmd now, (c.cache.map Prod.fst).Nodup →
      (((c.set p ctx cmd now).cache.map Prod.fst).Nodup)) ∧
    (∀ (c : ResponseCache) p ctx cmd now, 1 ≤ c.max_entries →
      c.cache.length ≤ c.max_entries →
      ((c.set p ctx cmd now).cache.length ≤ c.max_entries ∧
       (c.set p ctx cmd now).max_entries = c.max_entries)) ∧
    (∀ c : ResponseCache, ((c.clear.cache.map Prod.fst).Nodup) ∧
      c.clear.cache.length = 0) := by
  refine ⟨?_, ?_, ?_, ?_, ?_, ?_⟩
  · intro ttl mx
    exact ⟨List.nodup_nil, Nat.zero_le mx⟩
  · intro c disk hnd
    exact hnd
  · intro c p ctx now hnd
    cases hentry : assocGet c.cache (cache_key p ctx) with
    | none =>
      have hget : c.get p ctx now = (none, c) := by
        unfold ResponseCache.get
        simp only [hentry]
      rw [hget]
      exact ⟨hnd, Nat.le_refl _, rfl⟩
    | some entry =>
      by_cases httl : (now : Int) - (entry.timestamp : Int) < (c.ttl : Int)
      · have hget : c.get p ctx now = (some entry.command, { c with cache := assocInsert c.cache (cache_key p ctx) ({ entry with hit_count := entry.hit_count + 1 }) }) := by
          unfold ResponseCache.get
          simp only [hentry]
          rw [if_pos httl]
        rw [hget]
        refine ⟨nodup_keys_assocInsert _ _ hnd, ?_, rfl⟩
        rw [length_assocInsert_of_mem _ (mem_keys_of_assocGet_some hentry)]
      · have hget : c.get p ctx now = (none, { c with cache := assocRemove c.cache (cache_key p ctx) }) := by
          unfold ResponseCache.get
          simp only [hentry]
          rw [if_neg httl]
        rw [hget]
        exact ⟨nodup_keys_assocRemove _ hnd, length_assocRemove_le _ _, rfl⟩
  · intro c p ctx cmd now hnd
    unfold ResponseCache.set
    by_cases hcap : c.max_entries ≤ c.cache.length
    · rw [if_pos hcap]
      unfold ResponseCache.evict_oldest
      cases evictKey c.cache with
      | none => exact nodup_keys_assocInsert _ _ hnd
      | some k => exact nodup_keys_assocInsert _ _ (nodup_keys_assocRemove _ hnd)
    · rw [if_neg hcap]
      exact nodup_keys_assocInsert _ _ hnd
  · intro c p ctx cmd now hmax hlen
    constructor
    · unfold ResponseCache.set
      by_cases hcap : c.max_entries ≤ c.cache.length
      · rw [if_pos hcap]
        have hne : c.cache ≠ [] := by
          intro hnil
          rw [hnil] at hcap
          simp at hcap
          omega
        obtain ⟨e, hmem, hkey, -⟩ := evictKey_of_ne_nil hne
        unfold ResponseCache.evict_oldest
        rw [hkey]
        have hrm : (assocRemove c.cache e.1).length + 1 = c.cache.length :=
          length_assocRemove_of_mem (List.mem_map_of_mem Prod.fst hmem)
        calc (assocInsert (assocRemove c.cache e.1) (cache_key p ctx)
              ⟨cmd, now, 0⟩).length ≤ (assocRemove c.cache e.1).length + 1 :=
              length_assocInsert_le _ _ _
          _ = c.cache.length := hrm
          _ ≤ c.max_entries := hlen
      · rw [if_neg hcap]
        calc (assocInsert c.cache (cache_key p ctx) ⟨cmd, now, 0⟩).length ≤
              c.cache.length + 1 := length_assocInsert_le _ _ _
          _ ≤ c.max_entries := by omega
    · unfold ResponseCache.set
      by_cases hcap : c.max_entries ≤ c.cache.length
      · rw [if_pos hcap]
        unfold ResponseCache.evict_oldest
        cases evictKey c.cache <;> rfl
      · rw [if_neg hcap]
  · intro c
    exact ⟨List.nodup_nil, rfl⟩

/-- Witness for C5 on a concrete cache at capacity. -/
theorem C5_cache_invariants_witness :
    ((({ cache := [("k", ⟨"v", 0, 0⟩)], ttl := 10, max_entries := 1 } :
        ResponseCache).set "a" "" "y" 5).cache.length ≤ 1) ∧
    (((({ cache := [("k", ⟨"v", 0, 0⟩)], ttl := 10, max_entries := 1 } :
        ResponseCache).set "a" "" "y" 5).cache.map Prod.fst).Nodup) := by
  constructor
  · exact (C5_cache_invariants.2.2.2.2.1
      ({ cache := [("k", ⟨"v", 0, 0⟩)], ttl := 10, max_entries := 1 })
      "a" "" "y" 5 (by decide) (by decide)).1
  · exact C5_cache_invariants.2.2.2.1
      ({ cache := [("k", ⟨"v", 0, 0⟩)], ttl := 10, max_entries := 1 })
      "a" "" "y" 5 (by decide)

/-- Stage 1 of the C4 scenario: first `set` on the empty two-entry cache. -/
theorem C4_step1 : (ResponseCache.new 3600 2 none).set "a" "" "cmd-a" 0 =
    ⟨[("c683fc436ca8cee41e4050cb9ff9b7b1240944b5cab234ad082d69870803eacd", ⟨"cmd-a", 0, 0⟩)], 3600, 2⟩ := by
  simp only [ResponseCache.new, ResponseCache.load_from_disk, ResponseCache.set,
    ResponseCache.evict_oldest, keyA_hex]
  decide

/-- Stage 2: second `set`, still below capacity. -/
theorem C4_step2 : (⟨[("c683fc436ca8cee41e4050cb9ff9b7b1240944b5cab234ad082d69870803eacd", ⟨"cmd-a", 0, 0⟩)], 3600, 2⟩ : ResponseCache).set "b" "" "cmd-b" 1 =
    ⟨[("c683fc436ca8cee41e4050cb9ff9b7b1240944b5cab234ad082d69870803eacd", ⟨"cmd-a", 0, 0⟩), ("fef555a40787f8d2388ca3e47cfd31f72534bce97036100b9e7f4c553f721263", ⟨"cmd-b", 1, 0⟩)], 3600, 2⟩ := by
  simp only [ResponseCache.set, ResponseCache.evict_oldest, keyB_hex]
  decide

/-- Stage 3: third `set` at capacity evicts the oldest entry (key of "a"). -/
theorem C4_step3 : (⟨[("c683fc436ca8cee41e4050cb9ff9b7b1240944b5cab234ad082d69870803eacd", ⟨"cmd-a", 0, 0⟩), ("fef555a40787f8d2388ca3e47cfd31f72534bce97036100b9e7f4c553f721263", ⟨"cmd-b", 1, 0⟩)], 3600, 2⟩ : ResponseCache).set "c" "" "cmd-c" 2 =
    ⟨[("fef555a40787f8d2388ca3e47cfd31f72534bce97036100b9e7f4c553f721263", ⟨"cmd-b", 1, 0⟩), ("97455899030b974b22387a6476b3d02cc8a764a1ad17aa103512617f9acdc496", ⟨"cmd-c", 2, 0⟩)], 3600, 2⟩ := by
  simp only [ResponseCache.set, ResponseCache.evict_oldest, keyC_hex]
  decide

/-- After the scenario, the entry for "a" is gone. -/
theorem C4_scenario_none :
    (((((ResponseCache.new 3600 2 none).set "a" "" "cmd-a" 0).set "b" "" "cmd-b" 1).set
        "c" "" "cmd-c" 2).get "a" "" 3).1 = none := by
  rw [C4_step1, C4_step2, C4_step3]
  simp only [ResponseCache.get, keyA_hex]
  decide

/-- After the scenario, the entry for "c" is present with its command. -/
theorem C4_scenario_some :
    (((((ResponseCache.new 3600 2 none).set "a" "" "cmd-a" 0).set "b" "" "cmd-b" 1).set
        "c" "" "cmd-c" 2).get "c" "" 3).1 = some "cmd-c" := by
  rw [C4_step1, C4_step2, C4_step3]
  simp only [ResponseCache.get, keyC_hex]
  decide

/-- The behaviour C4 claims of `set` on a cache at capacity: exactly one
entry — one with minimal timestamp, the one picked by `evict_oldest` — is
removed before the fresh entry is inserted. -/
def SetEvictsOldest (c : ResponseCache) (p ctx cmd : String) (now : Nat) : Prop :=
  ∃ e ∈ c.cache, evictKey c.cache = some e.1 ∧
    (∀ y ∈ c.cache, e.2.timestamp ≤ y.2.timestamp) ∧
    (c.set p ctx cmd now).cache =
      assocInsert (assocRemove c.cache e.1) (cache_key p ctx) ⟨cmd, now, 0⟩ ∧
    (assocRemove c.cache e.1).length + 1 = c.cache.length

/-- C4 counterexample: a cache with `max_entries = 0` is at its configured
capacity while empty, and a `set` then evicts nothing (there is no entry
to evict), so the claim fails as stated. -/
theorem C4_counterexample :
    (ResponseCache.new 3600 0 none).cache.length =
      (ResponseCache.new 3600 0 none).max_entries ∧
    ¬ SetEvictsOldest (ResponseCache.new 3600 0 none) "a" "" "x" 5 := by
  constructor
  · rfl
  · rintro ⟨e, hmem, -⟩
    exact absurd hmem (List.not_mem_nil e)

/-- C4 (amended): on a cache at its configured capacity with
`max_entries ≥ 1`, `set` evicts exactly one minimal-timestamp entry before
inserting, and every inserted entry starts with `hit_count = 0`; the
`max_entries = 2` eviction scenario of the claim holds concretely. -/
theorem C4_set_evicts_oldest :
    (∀ (c : ResponseCache) (p ctx cmd : String) (now : Nat),
      c.cache.length = c.max_entries → 1 ≤ c.max_entries →
      SetEvictsOldest c p ctx cmd now) ∧
    (∀ (c : ResponseCache) (p ctx cmd : String) (now : Nat),
      assocGet (c.set p ctx cmd now).cache (cache_key p ctx) =
        some ⟨cmd, now, 0⟩) ∧
    (((((ResponseCache.new 3600 2 none).set "a" "" "cmd-a" 0).set "b" "" "cmd-b" 1).set
        "c" "" "cmd-c" 2).get "a" "" 3).1 = none ∧
    (((((ResponseCache.new 3600 2 none).set "a" "" "cmd-a" 0).set "b" "" "cmd-b" 1).set
        "c" "" "cmd-c" 2).get "c" "" 3).1 = some "cmd-c" := by
  refine ⟨?_, ?_, ?_, ?_⟩
  · intro c p ctx cmd now hcap hmax
    have hne : c.cache ≠ [] := by
      intro hnil
      rw [hnil] at hcap
      simp at hcap
      omega
    obtain ⟨e, hmem, hkey, hmin⟩ := evictKey_of_ne_nil hne
    have hset : (c.set p ctx cmd now).cache =
        assocInsert (assocRemove c.cache e.1) (cache_key p ctx) ⟨cmd, now, 0⟩ := by
      unfold ResponseCache.set
      rw [if_pos (by omega)]
      unfold ResponseCache.evict_oldest
      rw [hkey]
    exact ⟨e, hmem, hkey, hmin, hset,
      length_assocRemove_of_mem (List.mem_map_of_mem Prod.fst hmem)⟩
  · intro c p ctx cmd now
    unfold ResponseCache.set
    exact assocGet_insert_self _ _ _
  · exact C4_scenario_none
  · exact C4_scenario_some

/-- Witness for C4: the amended eviction behaviour on a concrete
one-entry cache at capacity. -/
theorem C4_set_evicts_oldest_witness :
    SetEvictsOldest ⟨[("k", ⟨"v", 0, 0⟩)], 3600, 1⟩ "a" "" "fresh" 5 :=
  C4_set_evicts_oldest.1 ⟨[("k", ⟨"v", 0, 0⟩)], 3600, 1⟩ "a" "" "fresh" 5 rfl
    (by decide)

/-! ## Batch executor (`src/executor/batch.rs`)

The external command runner (`CommandRunner::execute`) and the wall clock
are modelled by explicit parameters: `run` maps the built command string
to its outcome (captured stdout or error text) and duration, and the
batch wall-clock span is the `batch_duration` argument. -/

/-- Rust `TaskResult`. -/
structure TaskResult where
  task_id : Nat
  description : String
  success : Bool
  output : Option String
  error : Option String
  duration_ms : Nat
deriving DecidableEq, Repr

/-- Rust `TaskResult::success`. -/
def TaskResult.ofSuccess (t : Task) (output : String) (duration_ms : Nat) : TaskResult :=
  { task_id := t.id, description := t.description, success := true,
    output := some output, error := none, duration_ms := duration_ms }

/-- Rust `TaskResult::failure`. -/
def TaskResult.ofFailure (t : Task) (error : String) (duration_ms : Nat) : TaskResult :=
  { task_id := t.id, description := t.description, success := false,
    output := none, error := some error, duration_ms := duration_ms }

/-- Rust `BatchResult`. -/
structure BatchResult where
  total : Nat
  success_count : Nat
  failure_count : Nat
  task_results : List TaskResult
  total_duration_ms : Nat
deriving DecidableEq, Repr

/-- Rust `BatchResult::all_succeeded`. -/
def BatchResult.all_succeeded (b : BatchResult) : Bool :=
  b.failure_count = 0

/-- Rust `BatchResult::failed_tasks`. -/
def BatchResult.failed_tasks (b : BatchResult) : List TaskResult :=
  b.task_results.filter (fun r => !r.success)

/-- Rust `BatchExecutor` (the `CommandRunner` field is the `run` parameter
of `execute`). -/
structure BatchExecutor where
  max_parallel : Nat
deriving DecidableEq, Repr

/-- The command string built for a task: `cd <dir> && <command>` when a
working directory is set. -/
def buildCommand (t : Task) : String :=
  match t.working_dir with
  | some dir => "cd " ++ dir ++ " && " ++ t.command
  | none => t.command

/-- One task execution: run the built command, wrap the outcome as a
`TaskResult` (`execute_task_with_progress` minus the progress display). -/
def execute_task (run : String → Except String String × Nat) (t : Task) : TaskResult :=
  match run (buildCommand t) with
  | (Except.ok out, d) => TaskResult.ofSuccess t out d
  | (Except.error e, d) => TaskResult.ofFailure t e d

/-- Rust `execute_parallel_with_progress`: every task of the group is
spawned and `join_all` collects the results in spawn order. -/
def execute_parallel_with_progress (run : String → Except String String × Nat)
    (tasks : List Task) : List TaskResult :=
  tasks.map (execute_task run)

/-- The `all_results` accumulator of `BatchExecutor::execute`: the
parallel path walks the planner's groups in order, the sequential path
walks the task list in order. -/
def BatchExecutor.allResults (ex : BatchExecutor)
    (run : String → Except String String × Nat) (plan : ExecutionPlan) :
    List TaskResult :=
  if plan.can_parallelize && decide (1 < ex.max_parallel) then
    ((plan.get_parallel_groups).map
      (fun g => execute_parallel_with_progress run g)).flatten
  else
    plan.tasks.map (execute_task run)

/-- Rust `BatchExecutor::execute`. -/
def BatchExecutor.execute (ex : BatchExecutor)
    (run : String → Except String String × Nat) (plan : ExecutionPlan)
    (batch_duration : Nat) : BatchResult :=
  { total := plan.task_count
    success_count := ((ex.allResults run plan).filter (fun r => r.success)).length
    failure_count := ((ex.allResults run plan).filter (fun r => !r.success)).length
    task_results := ex.allResults run plan
    total_duration_ms := batch_duration }

/-- Coverage of the planner's groups under a well-formed dependency map,
for any plan shape. -/
theorem get_parallel_groups_flatten_perm (p : ExecutionPlan)
    (hacyc : AcyclicDeps p.dependencies) (href : DepsRefValid p) :
    (p.get_parallel_groups.flatten).Perm p.tasks := by
  obtain ⟨r, hrank⟩ := hacyc
  unfold ExecutionPlan.get_parallel_groups
  by_cases hpar : (!p.can_parallelize || p.tasks.isEmpty) = true
  · rw [if_pos hpar]
    simp
  · rw [if_neg hpar]
    have hperm := groupsLoop_flatten_perm p r hrank href (p.tasks.length + 1) []
      List.nodup_nil (by intro x hx; cases hx) (by simp)
    have hrem : remaining p [] = p.tasks :=
      List.filter_eq_self.mpr (fun a _ => rfl)
    rw [hrem] at hperm
    exact hperm

theorem length_filter_add_not (l : List TaskResult) :
    (l.filter (fun r => r.success)).length +
      (l.filter (fun r => !r.success)).length = l.length := by
  have hp := (List.filter_append_perm (fun r => r.success) l).length_eq
  rw [List.length_append] at hp
  exact hp

/-- The collected results are one per task, in both execution paths. -/
theorem allResults_perm (ex : BatchExecutor)
    (run : String → Except String String × Nat) (plan : ExecutionPlan)
    (hacyc : AcyclicDeps plan.dependencies) (href : DepsRefValid plan) :
    (ex.allResults run plan).Perm (plan.tasks.map (execute_task run)) := by
  unfold BatchExecutor.allResults
  by_cases hcond : (plan.can_parallelize && decide (1 < ex.max_parallel)) = true
  · rw [if_pos hcond]
    unfold execute_parallel_with_progress
    rw [← List.map_flatten]
    exact (get_parallel_groups_flatten_perm plan hacyc href).map _
  · rw [if_neg hcond]

/-- C6 counterexample: a plan with a (malformed) self-dependency executed
on the parallel path produces no task results at all, so
`success_count + failure_count` falls short of `total`. -/
theorem C6_counterexample :
    ((⟨2⟩ : BatchExecutor).execute (fun _ => (Except.ok "", 0))
      ((ExecutionPlan.new [Task.new 0 "t"]).add_dependency 0 0) 0).success_count +
    ((⟨2⟩ : BatchExecutor).execute (fun _ => (Except.ok "", 0))
      ((ExecutionPlan.new [Task.new 0 "t"]).add_dependency 0 0) 0).failure_count ≠
    ((⟨2⟩ : BatchExecutor).execute (fun _ => (Except.ok "", 0))
      ((ExecutionPlan.new [Task.new 0 "t"]).add_dependency 0 0) 0).total := by
  decide

/-- C6 (amended): for every plan whose dependency map is acyclic and
references only task ids, `execute` reports one `TaskResult` per task of
the plan (for any runner outcome, so failures never suppress other
tasks), with `success_count + failure_count = total = task_count`. -/
theorem C6_batch_accounting (ex : BatchExecutor)
    (run : String → Except String String × Nat) (plan : ExecutionPlan)
    (dur : Nat) (hacyc : AcyclicDeps plan.dependencies)
    (href : DepsRefValid plan) :
    (ex.execute run plan dur).total = plan.task_count ∧
    (ex.execute run plan dur).success_count +
      (ex.execute run plan dur).failure_count = (ex.execute run plan dur).total ∧
    (ex.execute run plan dur).task_results.Perm
      (plan.tasks.map (execute_task run)) := by
  have hperm := allResults_perm ex run plan hacyc href
  refine ⟨rfl, ?_, hperm⟩
  show ((ex.allResults run plan).filter (fun r => r.success)).length +
    ((ex.allResults run plan).filter (fun r => !r.success)).length = plan.task_count
  rw [length_filter_add_not, hperm.length_eq, List.length_map]
  rfl

/-- Witness for C6 on the concrete chain plan with a runner that fails
on one command. -/
theorem C6_batch_accounting_witness :
    ((⟨2⟩ : BatchExecutor).execute
      (fun s => if s = "B" then (Except.error "boom", 1) else (Except.ok "out", 1))
      chainPlan 9).success_count +
    ((⟨2⟩ : BatchExecutor).execute
      (fun s => if s = "B" then (Except.error "boom", 1) else (Except.ok "out", 1))
      chainPlan 9).failure_count =
    ((⟨2⟩ : BatchExecutor).execute
      (fun s => if s = "B" then (Except.error "boom", 1) else (Except.ok "out", 1))
      chainPlan 9).total :=
  (C6_batch_accounting ⟨2⟩
    (fun s => if s = "B" then (Except.error "boom", 1) else (Except.ok "out", 1))
    chainPlan 9 ⟨fun n => n, by decide⟩ (by decide)).2.1

/-- C10: with `max_parallel ≤ 1` the executor takes the sequential path:
the results are one per task in task-list order, and the outcome is
entirely independent of the dependency map (dependencies are ignored, so
a task listed earlier runs before tasks it depends on). -/
theorem C10_sequential_path (ex : BatchExecutor)
    (run : String → Except String String × Nat) (plan : ExecutionPlan)
    (dur : Nat) (hcp : plan.can_parallelize = true) (hmp : ex.max_parallel ≤ 1) :
    (ex.execute run plan dur).task_results = plan.tasks.map (execute_task run) ∧
    (∀ deps, ex.execute run { plan with dependencies := deps } dur =
      ex.execute run plan dur) := by
  have hdec : decide (1 < ex.max_parallel) = false := by
    rw [decide_eq_false_iff_not]
    omega
  constructor
  · show ex.allResults run plan = _
    unfold BatchExecutor.allResults
    rw [hdec, Bool.and_false, if_neg (by exact Bool.false_ne_true)]
  · intro deps
    unfold BatchExecutor.execute BatchExecutor.allResults
    rw [hdec, Bool.and_false]
    rfl

/-- Witness for C10 on the chain plan, whose dependency order is the
reverse of nothing — the sequential path just walks the list. -/
theorem C10_sequential_path_witness :
    ((⟨1⟩ : BatchExecutor).execute (fun _ => (Except.ok "ok", 2)) chainPlan 5).task_results =
      chainPlan.tasks.map (execute_task (fun _ => (Except.ok "ok", 2))) :=
  (C10_sequential_path ⟨1⟩ (fun _ => (Except.ok "ok", 2)) chainPlan 5
    (by decide) (by decide)).1

/-! ## Daemon and session pool (`src/daemon/*.rs`)

I/O boundaries are explicit parameters: `parsed` is the outcome of
`DaemonRequest::from_json` on the single request line, `invoke` is the
external `provider.generate_command` call, `now`/`uptime` are clock
readings.  `generate_command` additionally returns the sequence of
lock/operation events its body performs, in program order, so the
locking discipline is a provable property of the trace. -/

/-- Rust `DaemonRequest` (`protocol.rs`). -/
inductive DaemonRequest where
  | GenerateCommand (prompt context provider : String)
  | Ping
  | Shutdown
deriving DecidableEq, Repr

/-- Rust `DaemonResponse` (`protocol.rs`). -/
inductive DaemonResponse where
  | Success (command : String) (from_cache : Bool)
  | Pong (uptime_seconds : Nat) (session_count : Nat)
  | Error (message : String)
  | ShuttingDown
deriving DecidableEq, Repr

/-- Rust `str::to_lowercase`, restricted to the ASCII range actually
compared against (provider names, refusal patterns, prefixes). -/
def lowerString (s : String) : String := String.mk (s.data.map Char.toLower)

/-- Rust `ProviderFactory::create`: known names give a provider (modelled
by its name), unknown names give the `AiCliError`. -/
def ProviderFactory.create (provider_name : String) : Except String String :=
  if lowerString provider_name = "gemini" ∨ lowerString provider_name = "claude" ∨
      lowerString provider_name = "codex" then
    Except.ok (lowerString provider_name)
  else
    Except.error ("알 수 없는 AI provider: " ++ provider_name ++
      "\n지원되는 provider: gemini, claude, codex")

/-- Rust `SessionPool`: the provider registry is modelled by the list of
resident provider names (registry keys), the cache by `ResponseCache`. -/
structure SessionPool where
  providers : List String
  cache : ResponseCache
deriving DecidableEq, Repr

/-- Events performed by `SessionPool::generate_command`, in program
order.  Lock acquisition/release events delimit the scopes of the two
`RwLock` write guards in the source. -/
inductive LockEvent where
  | cacheLockAcquire
  | cacheGet
  | cacheLockRelease
  | providersLockAcquire
  | providerCreateInsert
  | providerInvoke
  | providersLockRelease
  | cacheSet
deriving DecidableEq, Repr

/-- Rust `SessionPool::generate_command`, with its event trace.  The
first block locks the cache for a single `get`; on a miss the second
block holds the registry write lock from the `contains_key` check through
the `provider.generate_command(...).await` call; a third block locks the
cache for a single `set`. -/
def SessionPool.generate_command (pool : SessionPool)
    (invoke : String → String → String → Except String String)
    (prompt context provider_name : String) (now : Nat) :
    Except String (String × Bool) × SessionPool × List LockEvent :=
  match pool.cache.get prompt context now with
  | (some cached, cache1) =>
    (Except.ok (cached, true), { pool with cache := cache1 },
      [LockEvent.cacheLockAcquire, LockEvent.cacheGet, LockEvent.cacheLockRelease])
  | (none, cache1) =>
    if pool.providers.contains provider_name then
      match invoke provider_name prompt context with
      | Except.ok command =>
        (Except.ok (command, false),
          { providers := pool.providers,
            cache := cache1.set prompt context command now },
          [LockEvent.cacheLockAcquire, LockEvent.cacheGet, LockEvent.cacheLockRelease,
           LockEvent.providersLockAcquire, LockEvent.providerInvoke,
           LockEvent.providersLockRelease,
           LockEvent.cacheLockAcquire, LockEvent.cacheSet, LockEvent.cacheLockRelease])
      | Except.error e =>
        (Except.error e, { pool with cache := cache1 },
          [LockEvent.cacheLockAcquire, LockEvent.cacheGet, LockEvent.cacheLockRelease,
           LockEvent.providersLockAcquire, LockEvent.providerInvoke,
           LockEvent.providersLockRelease])
    else
      match ProviderFactory.create provider_name with
      | Except.error e =>
        (Except.error e, { pool with cache := cache1 },
          [LockEvent.cacheLockAcquire, LockEvent.cacheGet, LockEvent.cacheLockRelease,
           LockEvent.providersLockAcquire, LockEvent.providersLockRelease])
      | Except.ok _ =>
        match invoke provider_name prompt context with
        | Except.ok command =>
          (Except.ok (command, false),
            { providers := pool.providers ++ [provider_name],
              cache := cache1.set prompt context command now },
            [LockEvent.cacheLockAcquire, LockEvent.cacheGet, LockEvent.cacheLockRelease,
             LockEvent.providersLockAcquire, LockEvent.providerCreateInsert,
             LockEvent.providerInvoke, LockEvent.providersLockRelease,
             LockEvent.cacheLockAcquire, LockEvent.cacheSet, LockEvent.cacheLockRelease])
        | Except.error e =>
          (Except.error e,
            { providers := pool.providers ++ [provider_name], cache := cache1 },
            [LockEvent.cacheLockAcquire, LockEvent.cacheGet, LockEvent.cacheLockRelease,
             LockEvent.providersLockAcquire, LockEvent.providerCreateInsert,
             LockEvent.providerInvoke, LockEvent.providersLockRelease])

/-- Rust `SessionPool::provider_count`. -/
def SessionPool.provider_count (pool : SessionPool) : Nat :=
  pool.providers.length

/-- Whether the cache lock is held while event `i` of the trace runs:
strictly more acquisitions than releases precede it. -/
def cacheHeldAt (tr : List LockEvent) (i : Nat) : Bool :=
  (tr.take i).count LockEvent.cacheLockRelease <
    (tr.take i).count LockEvent.cacheLockAcquire

/-- Whether the provider-registry lock is held while event `i` runs. -/
def providersHeldAt (tr : List LockEvent) (i : Nat) : Bool :=
  (tr.take i).count LockEvent.providersLockRelease <
    (tr.take i).count LockEvent.providersLockAcquire

/-- Rust `DaemonServer::handle_client`: one parsed request in, one
response out.  An `Except.error` result models the handler returning
early with an error — the connection is closed without any response
written (the spawned task only logs it); `Except.ok` carries the written
response, the updated pool and the `running` flag after handling. -/
def handle_client (parsed : Except String DaemonRequest) (pool : SessionPool)
    (invoke : String → String → String → Except String String)
    (now uptime : Nat) (running : Bool) :
    Except String (DaemonResponse × SessionPool × Bool) :=
  match parsed with
  | Except.error e => Except.error ("Failed to parse request: " ++ e)
  | Except.ok req =>
    match req with
    | DaemonRequest.GenerateCommand prompt context provider =>
      match pool.generate_command invoke prompt context provider now with
      | (Except.ok (command, from_cache), pool1, _) =>
        Except.ok (DaemonResponse.Success command from_cache, pool1, running)
      | (Except.error e, pool1, _) =>
        Except.ok (DaemonResponse.Error e, pool1, running)
    | DaemonRequest.Ping =>
      Except.ok (DaemonResponse.Pong uptime pool.provider_count, pool, running)
    | DaemonRequest.Shutdown =>
      Except.ok (DaemonResponse.ShuttingDown, pool, false)

/-! ### C7 and C9: daemon error handling and locking discipline -/

/-- Generic bridge: a property of indexed trace events needs checking
only at indices inside the list. -/
theorem forall_getElem_some {α : Type} {l : List α} {x : α} {P : Nat → Prop}
    (h : ∀ i, i < l.length → l[i]? = some x → P i) :
    ∀ i, l[i]? = some x → P i := by
  intro i hi
  by_cases hlt : i < l.length
  · exact h i hlt hi
  · rw [List.getElem?_eq_none_iff.mpr (by omega)] at hi
    cases hi

theorem cacheHeldAt_stable {tr : List LockEvent} {i : Nat} (h : tr.length ≤ i) :
    cacheHeldAt tr i = cacheHeldAt tr tr.length := by
  unfold cacheHeldAt
  rw [List.take_of_length_le h, List.take_of_length_le (Nat.le_refl _)]

/-- Generic bridge for the lock-held property: balanced traces are
lock-free past their end. -/
theorem forall_cacheHeld_imp {tr : List LockEvent} {P : Nat → Prop}
    (hb : ∀ i, i < tr.length → cacheHeldAt tr i = true → P i)
    (hout : cacheHeldAt tr tr.length = false) :
    ∀ i, cacheHeldAt tr i = true → P i := by
  intro i h
  by_cases hlt : i < tr.length
  · exact hb i hlt h
  · rw [cacheHeldAt_stable (by omega), hout] at h
    cases h

/-- The five possible event traces of `generate_command`: cache hit;
miss with resident provider (invoke ok or failing); miss with absent
unknown provider; miss with absent known provider (invoke ok or
failing — same trace shape). -/
theorem generate_command_trace_cases (pool : SessionPool)
    (invoke : String → String → String → Except String String)
    (p ctx prov : String) (now : Nat) :
    (pool.generate_command invoke p ctx prov now).2.2 =
        [LockEvent.cacheLockAcquire, LockEvent.cacheGet, LockEvent.cacheLockRelease] ∨
    (pool.generate_command invoke p ctx prov now).2.2 =
        [LockEvent.cacheLockAcquire, LockEvent.cacheGet, LockEvent.cacheLockRelease,
         LockEvent.providersLockAcquire, LockEvent.providerInvoke,
         LockEvent.providersLockRelease,
         LockEvent.cacheLockAcquire, LockEvent.cacheSet, LockEvent.cacheLockRelease] ∨
    (pool.generate_command invoke p ctx prov now).2.2 =
        [LockEvent.cacheLockAcquire, LockEvent.cacheGet, LockEvent.cacheLockRelease,
         LockEvent.providersLockAcquire, LockEvent.providerInvoke,
         LockEvent.providersLockRelease] ∨
    (pool.generate_command invoke p ctx prov now).2.2 =
        [LockEvent.cacheLockAcquire, LockEvent.cacheGet, LockEvent.cacheLockRelease,
         LockEvent.providersLockAcquire, LockEvent.providersLockRelease] ∨
    (pool.generate_command invoke p ctx prov now).2.2 =
        [LockEvent.cacheLockAcquire, LockEvent.cacheGet, LockEvent.cacheLockRelease,
         LockEvent.providersLockAcquire, LockEvent.providerCreateInsert,
         LockEvent.providerInvoke, LockEvent.providersLockRelease,
         LockEvent.cacheLockAcquire, LockEvent.cacheSet, LockEvent.cacheLockRelease] ∨
    (pool.generate_command invoke p ctx prov now).2.2 =
        [LockEvent.cacheLockAcquire, LockEvent.cacheGet, LockEvent.cacheLockRelease,
         LockEvent.providersLockAcquire, LockEvent.providerCreateInsert,
         LockEvent.providerInvoke, LockEvent.providersLockRelease] := by
  unfold SessionPool.generate_command
  rcases hget : pool.cache.get p ctx now with ⟨o, cache1⟩
  cases o with
  | some cached =>
    simp only [hget]
    left
    trivial
  | none =>
    simp only [hget]
    by_cases hres : pool.providers.contains prov
    · rw [if_pos hres]
      cases hinv : invoke prov p ctx with
      | ok command =>
        simp only [hinv]
        right; left; trivial
      | error e =>
        simp only [hinv]
        right; right; left; trivial
    · rw [if_neg hres]
      cases hcr : ProviderFactory.create prov with
      | error e =>
        simp only [hcr]
        right; right; right; left; trivial
      | ok v =>
        simp only [hcr]
        cases hinv : invoke prov p ctx with
        | ok command =>
          simp only [hinv]
          right; right; right; right; left; trivial
        | error e =>
          simp only [hinv]
          right; right; right; right; right; trivial

/-- C9 counterexample: on a cache miss for a not-yet-resident known
provider, the provider invocation event occurs while the registry lock
is held — the registry lock is not confined to the lookup-or-insert. -/
theorem C9_counterexample :
    ((⟨[], ⟨[], 3600, 100⟩⟩ : SessionPool).generate_command
        (fun _ _ _ => Except.ok "cmd") "p" "c" "gemini" 0).2.2[5]? =
      some LockEvent.providerInvoke ∧
    providersHeldAt ((⟨[], ⟨[], 3600, 100⟩⟩ : SessionPool).generate_command
        (fun _ _ _ => Except.ok "cmd") "p" "c" "gemini" 0).2.2 5 = true := by
  decide

/-- C9 (amended): in every trace of `generate_command`, the cache lock is
never held during the provider invocation and is held only while a single
`get`/`set` runs (or at its own release), as the claim states; but the
provider-registry lock is always held during the provider invocation —
a slow provider call therefore blocks every other registry operation,
not only lookups of the same name. -/
theorem C9_locking_discipline (pool : SessionPool)
    (invoke : String → String → String → Except String String)
    (p ctx prov : String) (now : Nat) :
    (∀ i, (pool.generate_command invoke p ctx prov now).2.2[i]? =
        some LockEvent.providerInvoke →
      cacheHeldAt (pool.generate_command invoke p ctx prov now).2.2 i = false) ∧
    (∀ i, cacheHeldAt (pool.generate_command invoke p ctx prov now).2.2 i = true →
      ((pool.generate_command invoke p ctx prov now).2.2[i]? =
          some LockEvent.cacheGet ∨
       (pool.generate_command invoke p ctx prov now).2.2[i]? =
          some LockEvent.cacheSet ∨
       (pool.generate_command invoke p ctx prov now).2.2[i]? =
          some LockEvent.cacheLockRelease)) ∧
    (∀ i, (pool.generate_command invoke p ctx prov now).2.2[i]? =
        some LockEvent.providerInvoke →
      providersHeldAt (pool.generate_command invoke p ctx prov now).2.2 i = true) := by
  rcases generate_command_trace_cases pool invoke p ctx prov now with
    htr | htr | htr | htr | htr | htr <;>
    rw [htr] <;>
    exact ⟨forall_getElem_some (by decide),
      forall_cacheHeld_imp (by decide) (by decide),
      forall_getElem_some (by decide)⟩

/-- Witness for C9: the discipline on a concrete hit-free pool. -/
theorem C9_locking_discipline_witness :
    cacheHeldAt ((⟨[], ⟨[], 3600, 100⟩⟩ : SessionPool).generate_command
        (fun _ _ _ => Except.ok "cmd") "p" "c" "gemini" 0).2.2 5 = false :=
  (C9_locking_discipline ⟨[], ⟨[], 3600, 100⟩⟩ (fun _ _ _ => Except.ok "cmd")
    "p" "c" "gemini" 0).1 5 (by decide)

/-- On a cache miss for a non-resident unknown provider name, the
session pool surfaces the factory's unknown-provider error. -/
theorem generate_command_unknown (pool : SessionPool)
    (invoke : String → String → String → Except String String)
    (p ctx : String) (now : Nat)
    (hmiss : (pool.cache.get p ctx now).1 = none)
    (hres : pool.providers.contains "nope" = false) :
    (pool.generate_command invoke p ctx "nope" now).1 =
      Except.error ("알 수 없는 AI provider: nope" ++
        "\n지원되는 provider: gemini, claude, codex") := by
  unfold SessionPool.generate_command
  rcases hget : pool.cache.get p ctx now with ⟨o, cache1⟩
  rw [hget] at hmiss
  obtain rfl : o = none := hmiss
  simp only [hget]
  rw [hres]
  have hcr : ProviderFactory.create "nope" = Except.error
      ("알 수 없는 AI provider: nope" ++
        "\n지원되는 provider: gemini, claude, codex") := by decide
  simp only [Bool.false_eq_true, if_false, hcr]

/-- C7 counterexample: a malformed request line makes `handle_client`
return an error without writing any response — no typed `Error` response
reaches the connection, contrary to the claim. -/
theorem C7_counterexample :
    ¬ ∃ (m : String) (pool1 : SessionPool) (b : Bool),
      handle_client (Except.error "not json") ⟨[], ⟨[], 3600, 100⟩⟩
        (fun _ _ _ => Except.ok "x") 0 0 true =
        Except.ok (DaemonResponse.Error m, pool1, b) := by
  rintro ⟨m, pool1, b, h⟩
  cases h

/-- C7 (amended): unknown providers and failing provider invocations are
answered with a typed `Error` response on the same connection with the
accept loop's `running` flag untouched; a malformed request line instead
makes the handler return early with an error — the connection closes
without any response (the failure is still confined to that connection:
`running` is unchanged because only the `Shutdown` branch clears it). -/
theorem C7_daemon_errors :
    (∀ (pool : SessionPool) invoke now uptime running e,
      handle_client (Except.error e) pool invoke now uptime running =
        Except.error ("Failed to parse request: " ++ e)) ∧
    (∀ (pool : SessionPool) invoke now uptime running p ctx prov msg,
      (pool.generate_command invoke p ctx prov now).1 = Except.error msg →
      ∃ pool1, handle_client
          (Except.ok (DaemonRequest.GenerateCommand p ctx prov)) pool invoke
          now uptime running =
        Except.ok (DaemonResponse.Error msg, pool1, running)) ∧
    (∀ (pool : SessionPool) invoke now uptime running p ctx,
      (pool.cache.get p ctx now).1 = none →
      pool.providers.contains "nope" = false →
      ∃ pool1, handle_client
          (Except.ok (DaemonRequest.GenerateCommand p ctx "nope")) pool invoke
          now uptime running =
        Except.ok (DaemonResponse.Error ("알 수 없는 AI provider: nope" ++
          "\n지원되는 provider: gemini, claude, codex"), pool1, running)) := by
  refine ⟨?_, ?_, ?_⟩
  · intro pool invoke now uptime running e
    rfl
  · intro pool invoke now uptime running p ctx prov msg hmsg
    rcases hgc : pool.generate_command invoke p ctx prov now with ⟨r, pool1, tr⟩
    rw [hgc] at hmsg
    have hr : r = Except.error msg := hmsg
    subst hr
    refine ⟨pool1, ?_⟩
    unfold handle_client
    simp only [hgc]
  · intro pool invoke now uptime running p ctx hmiss hres
    have hmsg := generate_command_unknown pool invoke p ctx now hmiss hres
    rcases hgc : pool.generate_command invoke p ctx "nope" now with ⟨r, pool1, tr⟩
    rw [hgc] at hmsg
    have hr : r = Except.error ("알 수 없는 AI provider: nope" ++
      "\n지원되는 provider: gemini, claude, codex") := hmsg
    subst hr
    refine ⟨pool1, ?_⟩
    unfold handle_client
    simp only [hgc]

/-- Witness for C7: a failing provider invocation on a concrete pool is
answered with a typed error and an untouched running flag. -/
theorem C7_daemon_errors_witness :
    ∃ pool1, handle_client
        (Except.ok (DaemonRequest.GenerateCommand "p" "c" "gemini"))
        ⟨[], ⟨[], 3600, 100⟩⟩ (fun _ _ _ => Except.error "boom") 0 0 true =
      Except.ok (DaemonResponse.Error "boom", pool1, true) :=
  C7_daemon_errors.2.1 ⟨[], ⟨[], 3600, 100⟩⟩ (fun _ _ _ => Except.error "boom")
    0 0 true "p" "c" "gemini" "boom" (by decide)

/-! ## Response post-processing (`src/ai/response_processor.rs`)

String handling is modelled over `List Char`; byte lengths
(`str::len`) are UTF-8 byte counts via `Char.utf8Size`.  Lowercasing is
ASCII (all compared patterns are ASCII). -/

def lowerL (s : List Char) : List Char := s.map Char.toLower

/-- Rust `str::contains` (substring). -/
def containsSub : List Char → List Char → Bool
  | [], pat => pat.isEmpty
  | c :: rest, pat => pat.isPrefixOf (c :: rest) || containsSub rest pat

/-- Rust `str::trim` (ASCII whitespace). -/
def trimChars (s : List Char) : List Char :=
  ((s.dropWhile Char.isWhitespace).reverse.dropWhile Char.isWhitespace).reverse

/-- Rust `str::len`: UTF-8 byte length. -/
def utf8Length (s : List Char) : Nat := (s.map Char.utf8Size).sum

/-- Rust `str::replace` for a non-empty pattern: all non-overlapping
occurrences, left to right.  (The processor only replaces the non-empty
patterns "```bash", "```sh" and "```".) -/
def replaceAll (pat sub : List Char) : List Char → List Char
  | [] => []
  | c :: rest =>
    if h : pat.isPrefixOf (c :: rest) ∧ pat ≠ [] then
      sub ++ replaceAll pat sub ((c :: rest).drop pat.length)
    else
      c :: replaceAll pat sub rest
termination_by s => s.length
decreasing_by
  · rw [List.length_drop]
    have hp : 0 < pat.length := List.length_pos.mpr h.2
    simp only [List.length_cons]
    omega
  · simp only [List.length_cons]
    omega

/-- The lazy capture group `(.*?)` of `CODE_BLOCK_REGEX`: the shortest
run of non-newline characters followed by a newline and a closing
fence. -/
def lazyCapture : List Char → Option (List Char)
  | [] => none
  | c :: rest =>
    if ("\n```".data).isPrefixOf (c :: rest) then some []
    else if c = '\n' then none
    else (lazyCapture rest).map (fun cap => c :: cap)

/-- The alternatives of `(?:bash|sh)?`, in leftmost-first preference
order, each followed by `\n(.*?)\n`-plus-closing-fence matching. -/
def tryTagAlts : List (List Char) → List Char → Option (List Char)
  | [], _ => none
  | alt :: alts, r =>
    if alt.isPrefixOf r then
      match r.drop alt.length with
      | '\n' :: body =>
        (match lazyCapture body with
         | some cap => some cap
         | none => tryTagAlts alts r)
      | _ => tryTagAlts alts r
    else tryTagAlts alts r

/-- An anchored match of `CODE_BLOCK_REGEX` at the start of `s`,
returning the capture group. -/
def matchAt (s : List Char) : Option (List Char) :=
  if ("```".data).isPrefixOf s then
    tryTagAlts ["bash".data, "sh".data, []] (s.drop 3)
  else none

/-- Leftmost match of `CODE_BLOCK_REGEX` (Rust `Regex::captures`),
returning capture group 1. -/
def findFence : List Char → Option (List Char)
  | [] => none
  | c :: rest =>
    match matchAt (c :: rest) with
    | some cap => some cap
    | none => findFence rest

/-- Rust `str::lines`: split at newlines, dropping a final empty piece
and any trailing carriage return. -/
def splitNl : List Char → List (List Char)
  | [] => [[]]
  | c :: rest =>
    if c = '\n' then [] :: splitNl rest
    else
      match splitNl rest with
      | [] => [[c]]
      | l :: ls => (c :: l) :: ls

def stripTrailingCr (l : List Char) : List Char :=
  if l.getLast? = some '\r' then l.dropLast else l

def rustLines (s : List Char) : List (List Char) :=
  let ps := splitNl s
  (if ps.getLast? = some [] then ps.dropLast else ps).map stripTrailingCr

/-- The refusal phrases of step 1 of `ResponseProcessor::process`. -/
def invalidPatterns : List String :=
  ["I am unable to", "I cannot", "I can\x27t", "I will try to find",
   "I\x27m sorry", "As an AI", "I don\x27t have the ability"]

/-- The explanatory phrases stripped in step 3. -/
def explainPhrases : List String :=
  ["Here is the command:", "The command is:", "You can use:", "Try this:",
   "Run this:", "Execute:", "Command:"]

/-- Rust `ResponseProcessor::process`. -/
def ResponseProcessor.process (raw : String) : Except String String :=
  let command0 := raw.data
  if invalidPatterns.any (fun pat =>
      containsSub (lowerL command0) (lowerL pat.data)) then
    Except.error ("AI returned an explanation instead of a command: " ++ raw ++
      "\nPlease try again with a clearer prompt.")
  else
    let command1 :=
      if containsSub command0 ("```".data) then
        match findFence command0 with
        | some cap => cap
        | none =>
          trimChars (replaceAll ("```".data) []
            (replaceAll ("```sh".data) [] (replaceAll ("```bash".data) [] command0)))
      else command0
    let command2 := explainPhrases.foldl (fun cmd pat =>
      if (lowerL pat.data).isPrefixOf (lowerL cmd) then
        trimChars (cmd.drop pat.data.length)
      else cmd) command1
    let ls := ((rustLines command2).map trimChars).filter (fun l => !l.isEmpty)
    let command3 :=
      if 1 < ls.length then
        if (ls.getD 0 []).getLast? = some (Char.ofNat 58) ∨
            50 < utf8Length (ls.getD 0 []) then
          ls.getD 1 (ls.getD 0 [])
        else ls.getD 0 []
      else command2
    let command4 := trimChars command3
    if command4.isEmpty then
      Except.error "AI returned an empty command. Please try again."
    else
      Except.ok (String.mk command4)

/-- C8: post-processing is idempotent on the already-clean input
"ls -la": the first pass returns it unchanged, and processing the result
again succeeds with the same value. -/
theorem C8_process_idempotent_clean :
    ResponseProcessor.process "ls -la" = Except.ok "ls -la" ∧
    (ResponseProcessor.process "ls -la").bind ResponseProcessor.process =
      ResponseProcessor.process "ls -la" := by
  decide

end Askai
